import Mathlib

/-!
Shallow embedding of the Skylark BI agent's normalization and analytics core
(`data_cleaner.py`, `analytics.py`).  Python floats are modelled as rationals,
DataFrames as lists of typed records, and `None`/NaN/strings as an explicit
value type.  All definitions are computable and follow the source line by line.
-/

namespace Skylark

/-- A calendar date (year/month/day), ordered lexicographically. -/
structure Date where
  year : Int
  month : Nat
  day : Nat
deriving DecidableEq, Repr

/-- Lexicographic order on dates, as a boolean (mirrors timestamp comparison). -/
def Date.ble (a b : Date) : Bool :=
  a.year < b.year ||
    (a.year = b.year &&
      (a.month < b.month || (a.month = b.month && a.day ≤ b.day)))

/-- A Python scalar cell value as it reaches the cleaning layer:
`None`, a float NaN, a (non-NaN) number, or a string. -/
inductive PyVal where
  | none
  | nan
  | num (q : ℚ)
  | str (s : String)
deriving DecidableEq, Repr

/-- Python truthiness of a cell value (`bool(v)`): `None` is falsy, NaN is
truthy, a number is truthy iff nonzero, a string iff nonempty. -/
def pyTruthy : PyVal → Bool
  | .none => false
  | .nan => true
  | .num q => q ≠ 0
  | .str s => s ≠ ""

/-- Whitespace characters recognised by Python `str.strip` / `\s`
(space, tab, newline, vertical tab, form feed, carriage return). -/
def isPySpace (c : Char) : Bool :=
  c = ' ' || c = '\t' || c = '\n' || c.toNat = 11 || c.toNat = 12 || c = '\r'

/-- Python `str.strip()`: drop leading and trailing whitespace. -/
def pyStrip (s : String) : String :=
  ⟨(s.data.dropWhile isPySpace).reverse.dropWhile isPySpace |>.reverse⟩

/-- Python `str.lower()` restricted to ASCII letters (all letters that occur
in the pipeline's keyword and category tables are ASCII). -/
def pyLower (s : String) : String :=
  ⟨s.data.map Char.toLower⟩

/-- Does `cs` start with pattern `p`, comparing case-insensitively? -/
def matchPatCI : List Char → List Char → Option (List Char)
  | [], cs => some cs
  | _ :: _, [] => Option.none
  | p :: ps, c :: cs => if c.toLower = p then matchPatCI ps cs else Option.none

/-- Does the char list start with the given needle (case-sensitive)? -/
def startsList : List Char → List Char → Bool
  | [], _ => true
  | _ :: _, [] => false
  | n :: ns, c :: cs => n = c && startsList ns cs

/-- Does the char list contain the needle as a contiguous sublist? -/
def containsSubList (needle : List Char) : List Char → Bool
  | [] => needle.isEmpty
  | c :: cs => startsList needle (c :: cs) || containsSubList needle cs

/-- Does the char list end with the given needle? -/
def endsList (needle hay : List Char) : Bool :=
  startsList needle.reverse hay.reverse

/-- Python `s[:-n]` for `n ≤ len(s)`: drop the last `n` characters. -/
def strDropRight (s : String) (n : ℕ) : String :=
  ⟨s.data.take (s.data.length - n)⟩

/-- Python `needle in hay` on strings (case-sensitive substring test). -/
def strContains (hay needle : String) : Bool :=
  containsSubList needle.data hay.data

/-- Consume a run of decimal digits with single underscores allowed strictly
between digits (Python numeric-literal rule).  Returns the accumulated value,
the number of digits consumed, and the rest of the input. -/
def digTail : List Char → ℕ → ℕ → ℕ × ℕ × List Char
  | [], v, n => (v, n, [])
  | c :: rest, v, n =>
    if c.isDigit then digTail rest (v * 10 + (c.toNat - 48)) (n + 1)
    else if c = '_' then
      match rest with
      | d :: rest2 =>
        if d.isDigit then digTail rest2 (v * 10 + (d.toNat - 48)) (n + 1)
        else (v, n, c :: rest)
      | [] => (v, n, c :: rest)
    else (v, n, c :: rest)

/-- Parse the optional exponent part accepted by `float()`:
`(e|E)[+-]?digits`.  Returns `none` when no exponent is present, `some none`
when an exponent marker is present but malformed, `some (some z)` on success
(`z` the signed exponent) paired with the remaining input in all cases. -/
def parseExp : List Char → Option (Int × List Char)
  | c :: rest =>
    if c = 'e' || c = 'E' then
      match rest with
      | s :: rest2 =>
        if s = '+' || s = '-' then
          match digTail rest2 0 0 with
          | (v, n, rest3) =>
            if n = 0 then Option.none
            else some (if s = '-' then -(v : Int) else (v : Int), rest3)
        else
          match digTail rest 0 0 with
          | (v, n, rest3) => if n = 0 then Option.none else some ((v : Int), rest3)
      | [] => Option.none
    else Option.none
  | [] => Option.none

/-- Scale a rational by a signed power of ten. -/
def pow10 (q : ℚ) (z : Int) : ℚ :=
  if 0 ≤ z then q * (10 : ℚ) ^ z.toNat else q / (10 : ℚ) ^ (-z).toNat

/-- Python `float(text)` on an already-stripped string, modelled over ℚ.
Grammar: optional sign, then digits and/or a decimal point (at least one digit
overall), then an optional exponent; underscores are allowed between digits.
Infinities and NaN lie outside the rational model and are treated as parse
failures (no pipeline input below ever takes that shape). -/
def pyFloat (s : String) : Option ℚ :=
  let cs := s.data
  let (sgn, cs) :=
    match cs with
    | c :: rest => if c = '+' then ((1 : ℚ), rest)
                   else if c = '-' then ((-1 : ℚ), rest)
                   else ((1 : ℚ), cs)
    | [] => ((1 : ℚ), cs)
  let (ip, ni, cs) := digTail cs 0 0
  match cs with
  | '.' :: rest =>
    let (fp, nf, rest2) := digTail rest 0 0
    if ni + nf = 0 then Option.none
    else
      let mant : ℚ := (ip : ℚ) + (fp : ℚ) / (10 : ℚ) ^ nf
      match rest2 with
      | [] => some (sgn * mant)
      | _ =>
        match parseExp rest2 with
        | some (z, []) => some (sgn * pow10 mant z)
        | _ => Option.none
  | _ =>
    if ni = 0 then Option.none
    else
      match cs with
      | [] => some (sgn * (ip : ℚ))
      | _ =>
        match parseExp cs with
        | some (z, []) => some (sgn * pow10 (ip : ℚ) z)
        | _ => Option.none

/-- A parsed JSON value (`json.loads` result).  Numbers carry the rational
value together with a flag telling whether the literal was an integer
(Python distinguishes `int` from `float` results). -/
inductive Json where
  | null
  | bool (b : Bool)
  | num (q : ℚ) (isInt : Bool)
  | str (s : String)
  | arr (xs : List Json)
  | obj (kvs : List (String × Json))
deriving Repr

/-- Skip JSON whitespace (space, tab, newline, carriage return). -/
def jskip : List Char → List Char
  | c :: cs => if c = ' ' || c = '\t' || c = '\n' || c = '\r' then jskip cs else c :: cs
  | [] => []

/-- Hex digit value. -/
def hexVal (c : Char) : Option ℕ :=
  if c.isDigit then some (c.toNat - 48)
  else if 'a' ≤ c && c ≤ 'f' then some (c.toNat - 87)
  else if 'A' ≤ c && c ≤ 'F' then some (c.toNat - 55)
  else Option.none

/-- Parse the body of a JSON string (after the opening quote), handling the
standard escapes; a raw control character is a parse error. -/
def jstr : List Char → List Char → Option (String × List Char)
  | acc, '"' :: rest => some (⟨acc.reverse⟩, rest)
  | acc, '\\' :: e :: rest =>
    if e = '"' then jstr ('"' :: acc) rest
    else if e = '\\' then jstr ('\\' :: acc) rest
    else if e = '/' then jstr ('/' :: acc) rest
    else if e = 'b' then jstr (Char.ofNat 8 :: acc) rest
    else if e = 'f' then jstr (Char.ofNat 12 :: acc) rest
    else if e = 'n' then jstr ('\n' :: acc) rest
    else if e = 'r' then jstr ('\r' :: acc) rest
    else if e = 't' then jstr ('\t' :: acc) rest
    else if e = 'u' then
      match rest with
      | a :: b :: c :: d :: rest2 =>
        match hexVal a, hexVal b, hexVal c, hexVal d with
        | some x, some y, some z, some w =>
          jstr (Char.ofNat (((x * 16 + y) * 16 + z) * 16 + w) :: acc) rest2
        | _, _, _, _ => Option.none
      | _ => Option.none
    else Option.none
  | acc, c :: rest => if c.toNat < 32 then Option.none else jstr (c :: acc) rest
  | _, [] => Option.none

/-- Consume a run of plain decimal digits (no underscores): accumulated value,
count of digits, rest. -/
def digTailNoU : List Char → ℕ → ℕ → ℕ × ℕ × List Char
  | [], v, n => (v, n, [])
  | c :: rest, v, n =>
    if c.isDigit then digTailNoU rest (v * 10 + (c.toNat - 48)) (n + 1)
    else (v, n, c :: rest)

/-- Parse `[+-]?digits` as appearing after a JSON exponent marker. -/
def jexpDigits (cs : List Char) : Option (Int × List Char) :=
  let (neg, cs1) :=
    match cs with
    | '+' :: rest => (false, rest)
    | '-' :: rest => (true, rest)
    | _ => (false, cs)
  match digTailNoU cs1 0 0 with
  | (v, n, rest) =>
    if n = 0 then Option.none
    else some (if neg then -(v : Int) else (v : Int), rest)

/-- Attach an optional JSON exponent to a parsed mantissa. -/
def jnumExp (neg : Bool) (mant : ℚ) (isInt : Bool) (cs : List Char) :
    Option (ℚ × Bool × List Char) :=
  let sgn : ℚ := if neg then -1 else 1
  match cs with
  | e :: rest =>
    if e = 'e' || e = 'E' then
      match jexpDigits rest with
      | some (z, rest2) => some (sgn * pow10 mant z, false, rest2)
      | _ => Option.none
    else some (sgn * mant, isInt, cs)
  | [] => some (sgn * mant, isInt, [])

/-- Parse a JSON number at the current position (strict grammar: optional
minus, integer part with no leading zeros, optional fraction, optional
exponent).  Returns value, whether the literal parses as a Python `int`,
and the rest. -/
def jnum (cs : List Char) : Option (ℚ × Bool × List Char) :=
  let (neg, cs1) :=
    match cs with
    | '-' :: rest => (true, rest)
    | _ => (false, cs)
  if (match cs1 with | '0' :: d :: _ => d.isDigit | _ => false) then Option.none
  else
    match digTailNoU cs1 0 0 with
    | (ip, ni, cs2) =>
      if ni = 0 then Option.none
      else
        match cs2 with
        | '.' :: rest =>
          match digTailNoU rest 0 0 with
          | (fp, nf, rest2) =>
            if nf = 0 then Option.none
            else jnumExp neg ((ip : ℚ) + (fp : ℚ) / (10 : ℚ) ^ nf) false rest2
        | _ => jnumExp neg (ip : ℚ) true cs2

/-- Parse one JSON value (fuel-indexed recursive descent).  Array and object
tails are parsed by re-entering the parser with the opening bracket put back
in front of the remaining input (rejecting an empty container there, so a
trailing comma still fails); the parser is thus a single structurally
fuel-recursive function, and every recursive call strictly shortens the
input, so fuel `|input| + 2` always suffices. -/
def jval : ℕ → List Char → Option (Json × List Char)
  | 0, _ => Option.none
  | fuel + 1, cs0 =>
    let cs := jskip cs0
    match cs with
    | [] => Option.none
    | c :: rest =>
      if c = '"' then (jstr [] rest).map (fun p => (Json.str p.1, p.2))
      else if c = Char.ofNat 123 then
        match jskip rest with
        | d :: r3 =>
          if d = Char.ofNat 125 then some (Json.obj [], r3)
          else if d = '"' then
            match jstr [] r3 with
            | some (k, rest2) =>
              match jskip rest2 with
              | f :: r5 =>
                if f = ':' then
                  match jval fuel r5 with
                  | some (v, r6) =>
                    match jskip r6 with
                    | g :: r7 =>
                      if g = Char.ofNat 125 then some (Json.obj [(k, v)], r7)
                      else if g = ',' then
                        match jval fuel (Char.ofNat 123 :: r7) with
                        | some (Json.obj (kv :: kvs), r8) =>
                          some (Json.obj ((k, v) :: kv :: kvs), r8)
                        | _ => Option.none
                      else Option.none
                    | [] => Option.none
                  | _ => Option.none
                else Option.none
              | [] => Option.none
            | _ => Option.none
          else Option.none
        | [] => Option.none
      else if c = '[' then
        match jskip rest with
        | d :: r3 =>
          if d = ']' then some (Json.arr [], r3)
          else
            match jval fuel (d :: r3) with
            | some (j, r4) =>
              match jskip r4 with
              | e :: r5 =>
                if e = ']' then some (Json.arr [j], r5)
                else if e = ',' then
                  match jval fuel ('[' :: r5) with
                  | some (Json.arr (x :: xs), r6) => some (Json.arr (j :: x :: xs), r6)
                  | _ => Option.none
                else Option.none
              | [] => Option.none
            | _ => Option.none
        | [] => Option.none
      else if startsList ['t','r','u','e'] cs then some (Json.bool true, cs.drop 4)
      else if startsList ['f','a','l','s','e'] cs then some (Json.bool false, cs.drop 5)
      else if startsList ['n','u','l','l'] cs then some (Json.null, cs.drop 4)
      else
        match jnum cs with
        | some (q, i, rest2) => some (Json.num q i, rest2)
        | _ => Option.none

/-- Python `json.loads`: parse the whole string as one JSON value, allowing
surrounding whitespace, rejecting trailing garbage. -/
def json_loads (s : String) : Option Json :=
  match jval (2 * s.length + 2) s.data with
  | some (j, rest) => if jskip rest = [] then some j else Option.none
  | _ => Option.none

/-- Python `dict.get` on a parsed JSON object (duplicate keys: last wins). -/
def jget (kvs : List (String × Json)) (k : String) : Option Json :=
  (kvs.reverse.find? (fun p => p.1 = k)).map (fun p => p.2)

/-- Decimal digit string of a natural number. -/
def natStr (n : ℕ) : String :=
  ⟨Nat.toDigits 10 n⟩

/-- Decimal string of an integer. -/
def intStr (z : Int) : String :=
  if z < 0 then "-" ++ natStr z.natAbs else natStr z.natAbs

/-- The literal left-brace character, built numerically. -/
def lbrace : String := ⟨[Char.ofNat 123]⟩

/-- The literal right-brace character, built numerically. -/
def rbrace : String := ⟨[Char.ofNat 125]⟩

/-- The literal single-quote character, built numerically. -/
def squote : String := ⟨[Char.ofNat 39]⟩

/-- Left-pad a string with zeros to the given width. -/
def padZeros (s : String) (w : ℕ) : String :=
  ⟨List.replicate (w - s.length) '0'⟩ ++ s

/-- Shortest fixed-point decimal rendering of a nonnegative rational (helper
for `pyFloatRepr`). -/
def pyFloatReprNN (q : ℚ) : String :=
  if q.den = 1 then natStr q.num.natAbs ++ ".0"
  else
    match (List.range 18).find? (fun k => (q * (10 : ℚ) ^ k).den = 1) with
    | some k =>
      let n := (q * (10 : ℚ) ^ k).num.natAbs
      natStr (n / 10 ^ k) ++ "." ++ padZeros (natStr (n % 10 ^ k)) k
    | _ => "0.0"

/-- Python `str()` of a float value modelled as an exact rational: render the
shortest fixed-point decimal (every float arising in this pipeline has a
finite decimal expansion; quantities outside that range fall back to `0.0`,
a corner no pipeline value reaches). -/
def pyFloatRepr (q : ℚ) : String :=
  if q < 0 then "-" ++ pyFloatReprNN (-q) else pyFloatReprNN q

mutual

/-- Python `repr` of a parsed-JSON container value. -/
def jsonRepr : Json → String
  | Json.null => "None"
  | Json.bool true => "True"
  | Json.bool false => "False"
  | Json.num q i => if i then intStr q.num else pyFloatRepr q
  | Json.str s => squote ++ s ++ squote
  | Json.arr xs => "[" ++ String.intercalate ", " (jsonReprList xs) ++ "]"
  | Json.obj kvs => lbrace ++ String.intercalate ", " (jsonReprKVs kvs) ++ rbrace

/-- `repr` of each array element. -/
def jsonReprList : List Json → List String
  | [] => []
  | j :: rest => jsonRepr j :: jsonReprList rest

/-- `repr` of each object member. -/
def jsonReprKVs : List (String × Json) → List String
  | [] => []
  | (k, v) :: rest => (squote ++ k ++ squote ++ ": " ++ jsonRepr v) :: jsonReprKVs rest

end

/-- Python `str()` of a value parsed from JSON (as used on
`parsed.get("value", parsed.get("text", ""))`). -/
def pyStrOfJson : Json → String
  | Json.str s => s
  | Json.null => "None"
  | Json.bool true => "True"
  | Json.bool false => "False"
  | Json.num q i => if i then intStr q.num else pyFloatRepr q
  | j => jsonRepr j

/-- Python `str()` of a scalar cell value. -/
def pyStr : PyVal → String
  | PyVal.none => "None"
  | PyVal.nan => "nan"
  | PyVal.num q => if q.den = 1 then intStr q.num else pyFloatRepr q
  | PyVal.str s => s

/-- The currency-marker alternatives of the regex
`(?i)(rs\.?|inr|usd|eur|£|€|\$|₹)`, in alternation order (the optional dot
of `rs\.?` is matched greedily, hence the two entries). -/
def currencyPats : List (List Char) :=
  [['r','s','.'], ['r','s'], ['i','n','r'], ['u','s','d'], ['e','u','r'],
   ['£'], ['€'], ['$'], ['₹']]

/-- Try each pattern at the current position (case-insensitively); return the
input after the first match. -/
def tryPats : List (List Char) → List Char → Option (List Char)
  | [], _ => Option.none
  | p :: ps, cs =>
    match matchPatCI p cs with
    | some rest => some rest
    | _ => tryPats ps cs

/-- `re.sub` of the currency-marker pattern with the empty string: scan left to
right, removing the first matching alternative at each position.  Fuel-indexed
(fuel `length + 1` always suffices since every match consumes a character). -/
def currencyStripFuel : ℕ → List Char → List Char
  | 0, cs => cs
  | _, [] => []
  | f + 1, c :: cs =>
    match tryPats currencyPats (c :: cs) with
    | some rest => currencyStripFuel f rest
    | _ => c :: currencyStripFuel f cs

/-- `re.sub(r"[,\s]", "", text)`: drop commas and whitespace. -/
def stripCommaWs (cs : List Char) : List Char :=
  cs.filter (fun c => ¬ (c = ',' || isPySpace c))

/--
`normalize_revenue` (data_cleaner.py): converts messy revenue values to a
number, returning 0 on failure (fail-soft, never raising — totality of this
function is the embedded form of that guarantee).
-/
def normalize_revenue (value : PyVal) : ℚ :=
  -- if value is None or value == "" or (isinstance(value, float) and np.isnan(value))
  if value = PyVal.none ∨ value = PyVal.str "" ∨ value = PyVal.nan then 0
  else
    match value with
    | PyVal.num q => q
    | PyVal.str s =>
      let text := pyStrip s
      -- JSON value strings: recurse into the "value" / "text" field
      let step : ℚ ⊕ String :=
        if startsList lbrace.data text.data || startsList ['"'] text.data then
          match json_loads text with
          | some (Json.obj kvs) =>
            Sum.inr (pyStrOfJson ((jget kvs "value").getD
              ((jget kvs "text").getD (Json.str ""))))
          | some (Json.num q _) => Sum.inl q
          | _ => Sum.inr text
        else Sum.inr text
      match step with
      | Sum.inl q => q
      | Sum.inr t1 =>
        let t2 : String := ⟨stripCommaWs (currencyStripFuel (t1.data.length + 1) t1.data)⟩
        let tl := pyLower t2
        let (mult, t3) :=
          if endsList ['c', 'r'] tl.data then ((10000000 : ℚ), strDropRight t2 2)
          else if endsList ['l'] tl.data then ((100000 : ℚ), strDropRight t2 1)
          else if endsList ['k'] tl.data then ((1000 : ℚ), strDropRight t2 1)
          else ((1 : ℚ), t2)
        match pyFloat t3 with
        | some x => x * mult
        | _ => 0
    | _ => 0

/-- One directive or literal of a `strptime` format string. -/
inductive FmtTok where
  | Y | m | d | b | B
  | lit (c : Char)

/-- Abbreviated month names (`%b`), lowercase. -/
def monthAbbrevs : List (String × ℕ) :=
  [("jan", 1), ("feb", 2), ("mar", 3), ("apr", 4), ("may", 5), ("jun", 6),
   ("jul", 7), ("aug", 8), ("sep", 9), ("oct", 10), ("nov", 11), ("dec", 12)]

/-- Full month names (`%B`), lowercase, listed longest-first as `strptime`
sorts its alternation (no name is a prefix of another, so only the
prefix-match discipline matters). -/
def monthFulls : List (String × ℕ) :=
  [("september", 9), ("february", 2), ("november", 11), ("december", 12),
   ("january", 1), ("october", 10), ("august", 8), ("april", 4), ("march", 3),
   ("june", 6), ("july", 7), ("may", 5)]

/-- Match one month name from the table as a case-insensitive prefix. -/
def matchMonth (table : List (String × ℕ)) (cs : List Char) : Option (ℕ × List Char) :=
  table.findSome? (fun p => (matchPatCI p.1.data cs).map (fun rest => (p.2, rest)))

/-- Run a token list against the input, accumulating year/month/day
(`strptime` regex semantics: `%Y` is exactly four digits, `%m`/`%d` are 1–2
digits preferring the two-digit in-range reading with backtracking, literal
whitespace matches a nonempty whitespace run, and the whole string must be
consumed).  Fuel-indexed so that evaluation is structural; every step strictly
shrinks tokens-plus-input, so fuel `|toks| + |input| + 1` always suffices. -/
def runFmt : ℕ → List FmtTok → List Char → Option ℕ → Option ℕ → Option ℕ → Option Date
  | 0, _, _, _, _, _ => Option.none
  | _ + 1, [], [], some y, some mo, some dy => some ⟨(y : Int), mo, dy⟩
  | _ + 1, [], _, _, _, _ => Option.none
  | fuel + 1, FmtTok.Y :: rest, c1 :: c2 :: c3 :: c4 :: cs, _, mo, dy =>
    if c1.isDigit && c2.isDigit && c3.isDigit && c4.isDigit then
      runFmt fuel rest cs
        (some ((((c1.toNat - 48) * 10 + (c2.toNat - 48)) * 10 + (c3.toNat - 48)) * 10
          + (c4.toNat - 48))) mo dy
    else Option.none
  | _ + 1, FmtTok.Y :: _, _, _, _, _ => Option.none
  | fuel + 1, FmtTok.m :: rest, c1 :: cs0, y, _, dy =>
    if c1.isDigit then
      let v1 := c1.toNat - 48
      match cs0 with
      | c2 :: cs =>
        if c2.isDigit then
          let v := v1 * 10 + (c2.toNat - 48)
          if 1 ≤ v ∧ v ≤ 12 then
            match runFmt fuel rest cs y (some v) dy with
            | some dt => some dt
            | _ => if 1 ≤ v1 then runFmt fuel rest (c2 :: cs) y (some v1) dy else Option.none
          else if 1 ≤ v1 then runFmt fuel rest (c2 :: cs) y (some v1) dy else Option.none
        else if 1 ≤ v1 then runFmt fuel rest cs0 y (some v1) dy else Option.none
      | [] => if 1 ≤ v1 then runFmt fuel rest [] y (some v1) dy else Option.none
    else Option.none
  | _ + 1, FmtTok.m :: _, [], _, _, _ => Option.none
  | fuel + 1, FmtTok.d :: rest, c1 :: cs0, y, mo, _ =>
    if c1.isDigit then
      let v1 := c1.toNat - 48
      match cs0 with
      | c2 :: cs =>
        if c2.isDigit then
          let v := v1 * 10 + (c2.toNat - 48)
          if 1 ≤ v ∧ v ≤ 31 then
            match runFmt fuel rest cs y mo (some v) with
            | some dt => some dt
            | _ => if 1 ≤ v1 then runFmt fuel rest (c2 :: cs) y mo (some v1) else Option.none
          else if 1 ≤ v1 then runFmt fuel rest (c2 :: cs) y mo (some v1) else Option.none
        else if 1 ≤ v1 then runFmt fuel rest cs0 y mo (some v1) else Option.none
      | [] => if 1 ≤ v1 then runFmt fuel rest [] y mo (some v1) else Option.none
    else Option.none
  | _ + 1, FmtTok.d :: _, [], _, _, _ => Option.none
  | fuel + 1, FmtTok.b :: rest, cs, y, _, dy =>
    match matchMonth monthAbbrevs cs with
    | some (v, cs2) => runFmt fuel rest cs2 y (some v) dy
    | _ => Option.none
  | fuel + 1, FmtTok.B :: rest, cs, y, _, dy =>
    match matchMonth monthFulls cs with
    | some (v, cs2) => runFmt fuel rest cs2 y (some v) dy
    | _ => Option.none
  | fuel + 1, FmtTok.lit c :: rest, c1 :: cs1, y, mo, dy =>
    if isPySpace c then
      if isPySpace c1 then
        match cs1 with
        | c2 :: cs2 =>
          if isPySpace c2 then runFmt fuel (FmtTok.lit c :: rest) (c2 :: cs2) y mo dy
          else runFmt fuel rest (c2 :: cs2) y mo dy
        | [] => runFmt fuel rest [] y mo dy
      else Option.none
    else if c1 = c then runFmt fuel rest cs1 y mo dy else Option.none
  | _ + 1, FmtTok.lit _ :: _, [], _, _, _ => Option.none

/-- Days in a month of the (proleptic Gregorian) calendar. -/
def daysInMonth (y : Int) (m : ℕ) : ℕ :=
  if m = 2 then
    if y % 4 = 0 ∧ (y % 100 ≠ 0 ∨ y % 400 = 0) then 29 else 28
  else if m = 4 ∨ m = 6 ∨ m = 9 ∨ m = 11 then 30
  else 31

/-- Validity of a `datetime.date`: year 1–9999, month 1–12, day within the
month (construction raises `ValueError` outside this range). -/
def Date.valid (dt : Date) : Bool :=
  1 ≤ dt.year && dt.year ≤ 9999 && 1 ≤ dt.month && dt.month ≤ 12 &&
    1 ≤ dt.day && dt.day ≤ daysInMonth dt.year dt.month

/-- `datetime.strptime(text, fmt)` restricted to a date result: run the
format, then validate through the `datetime` constructor. -/
def strptimeDate (toks : List FmtTok) (s : String) : Option Date :=
  match runFmt (toks.length + s.data.length + 1) toks s.data Option.none Option.none Option.none with
  | some dt => if dt.valid then some dt else Option.none
  | _ => Option.none

/-- The `FORMATS` table of `normalize_date`, in source order. -/
def FORMATS : List (List FmtTok) :=
  [[FmtTok.Y, FmtTok.lit '-', FmtTok.m, FmtTok.lit '-', FmtTok.d],
   [FmtTok.d, FmtTok.lit '/', FmtTok.m, FmtTok.lit '/', FmtTok.Y],
   [FmtTok.m, FmtTok.lit '/', FmtTok.d, FmtTok.lit '/', FmtTok.Y],
   [FmtTok.d, FmtTok.lit '-', FmtTok.m, FmtTok.lit '-', FmtTok.Y],
   [FmtTok.d, FmtTok.lit ' ', FmtTok.b, FmtTok.lit ' ', FmtTok.Y],
   [FmtTok.B, FmtTok.lit ' ', FmtTok.d, FmtTok.lit ',', FmtTok.lit ' ', FmtTok.Y],
   [FmtTok.d, FmtTok.lit ' ', FmtTok.B, FmtTok.lit ' ', FmtTok.Y],
   [FmtTok.Y, FmtTok.lit '/', FmtTok.m, FmtTok.lit '/', FmtTok.d]]

/-- Python truthiness of a parsed JSON value (the `if not text:` test on the
extracted `date` payload). -/
def jsonTruthy : Json → Bool
  | Json.null => false
  | Json.bool b => b
  | Json.num q _ => q ≠ 0
  | Json.str s => s ≠ ""
  | Json.arr xs => ¬ xs.isEmpty
  | Json.obj kvs => ¬ kvs.isEmpty

/--
`normalize_date` (data_cleaner.py): parse various date formats, returning the
canonical date or `None` (modelled as the date value itself rather than the
intermediate ISO string, which `clean_*_df` parses right back).  The format
loop catches only `ValueError`, so a truthy non-string `date` payload inside
a JSON cell (e.g. the reachable input `'\x7b"date": 5\x7d'`) flows into
`strptime` as a non-string and raises an **uncaught `TypeError`**; that path
is `Except.error` here and aborts the calling builder, as in the source.
-/
def normalize_date (value : PyVal) : Except String (Option Date) :=
  -- if not value or value == "" or (isinstance(value, float) and np.isnan(value))
  if ¬ pyTruthy value ∨ value = PyVal.str "" ∨ value = PyVal.nan then Except.ok Option.none
  else
    let text := pyStrip (pyStr value)
    if startsList lbrace.data text.data then
      match json_loads text with
      | some (Json.obj kvs) =>
        -- text = parsed.get("date", ""); if not text: return None
        let payload := (jget kvs "date").getD (Json.str "")
        if ¬ jsonTruthy payload then Except.ok Option.none
        else
          match payload with
          | Json.str s => Except.ok (FORMATS.findSome? (fun fmt => strptimeDate fmt s))
          | _ => Except.error "TypeError: strptime() argument 1 must be str"
      | _ => Except.ok (FORMATS.findSome? (fun fmt => strptimeDate fmt text))
    else Except.ok (FORMATS.findSome? (fun fmt => strptimeDate fmt text))

/-- `normalize_text` (data_cleaner.py): lowercase + strip, empty for falsy. -/
def normalize_text (value : PyVal) : String :=
  if ¬ pyTruthy value then "" else pyLower (pyStrip (pyStr value))

/-- The `DEAD_STAGES` keyword set. -/
def DEAD_STAGES : List String :=
  ["n. not relevant at the moment", "o. not relevant at all",
   "l. project lost", "m. projects on hold"]

/-- The `WON_STAGES` keyword set. -/
def WON_STAGES : List String :=
  ["h. work order received", "project completed", "k. amount accrued",
   "g. project won", "j. invoice sent", "i. poc"]

/-- The `OPEN_STAGES` keyword set. -/
def OPEN_STAGES : List String :=
  ["a. lead generated", "b. sales qualified leads", "c. demo done",
   "d. feasibility", "e. proposal/commercials sent", "f. negotiations"]

/-- The `PROBABILITY_MAP` table. -/
def PROBABILITY_MAP : List (String × ℚ) :=
  [("high", 4/5), ("medium", 1/2), ("low", 1/4), ("", 0)]

/-- `dict.get` with default on a small association table. -/
def tableGet (t : List (String × ℚ)) (k : String) (dflt : ℚ) : ℚ :=
  ((t.find? (fun p => p.1 = k)).map (fun p => p.2)).getD dflt

/-- `map_deal_status` (data_cleaner.py): canonical deal status from the raw
status and stage fields. -/
def map_deal_status (status stage : PyVal) : String :=
  let s := normalize_text status
  let st := normalize_text stage
  if s = "won" then "Won"
  else if s = "dead" then "Dead"
  else if s = "on hold" then "On Hold"
  else if WON_STAGES.contains st then "Won"
  else if DEAD_STAGES.contains st then "Dead"
  else if OPEN_STAGES.contains st then "Open"
  else "Open"

/-- Column metadata of a schema entry (`{title, type}`). -/
structure ColMeta where
  title : String
  ty : String
deriving DecidableEq, Repr

/-- A raw board item: a flat map from column id (and the reserved
`_item_name` key) to a raw value. -/
def RawItem := List (String × PyVal)

/-- `item.get(key, "")`. -/
def itemGet (item : RawItem) (k : String) : PyVal :=
  ((item.find? (fun p => p.1 = k)).map (fun p => p.2)).getD (PyVal.str "")

/-- A board schema: name plus the ordered column-id → metadata mapping. -/
structure Schema where
  board_name : String
  columns : List (String × ColMeta)

/-- `find_column` (data_cleaner.py): value of the first column whose
lowercased title contains any of the lowercased keywords. -/
def find_column (item : RawItem) (schema_columns : List (String × ColMeta))
    (keywords : List String) : PyVal :=
  let kw_lower := keywords.map pyLower
  match schema_columns.find?
      (fun p => kw_lower.any (fun kw => strContains (pyLower p.2.title) kw)) with
  | some p => itemGet item p.1
  | _ => PyVal.str ""

/-- A canonical deal record (one row of the cleaned Deals frame). -/
structure DealRecord where
  deal_name : String
  owner_code : String
  client_code : String
  status : String
  stage : String
  sector : String
  deal_value : ℚ
  probability : ℚ
  weighted_value : ℚ
  close_date : Option Date
  created_date : Option Date
  product : String
deriving DecidableEq, Repr

/-- The record built from one kept deals-board item (loop body of
`clean_deals_df`). -/
def buildDealRecordCore (cols : List (String × ColMeta)) (item : RawItem)
    (name : String) (close_date created_date : Option Date) : DealRecord :=
  let status_raw := find_column item cols ["status", "deal status"]
  let stage_raw := find_column item cols ["stage", "deal stage"]
  let sector_raw := find_column item cols ["sector", "service"]
  let value_raw := find_column item cols ["value", "deal value", "masked"]
  let probability_raw := find_column item cols ["probability", "closure"]
  let owner_raw := find_column item cols ["owner", "personnel"]
  let client_raw := find_column item cols ["client", "company"]
  let product_raw := find_column item cols ["product"]
  let revenue := normalize_revenue value_raw
  let probability := tableGet PROBABILITY_MAP (normalize_text probability_raw) 0
  { deal_name := name
    owner_code := pyStrip (pyStr owner_raw)
    client_code := pyStrip (pyStr client_raw)
    status := map_deal_status status_raw stage_raw
    stage := normalize_text stage_raw
    sector := let s := normalize_text sector_raw; if s = "" then "unknown" else s
    deal_value := revenue
    probability := probability
    weighted_value := revenue * probability
    close_date := close_date
    created_date := created_date
    product := pyStrip (pyStr product_raw) }

/-- The full loop body for a kept deals-board item: an uncaught `TypeError`
from a date normalization aborts the batch.  `close_date` keeps Python's
short-circuit — `normalize_date(close) or normalize_date(tentative)`
evaluates the fallback only when the first call returns a falsy result. -/
def buildDealRecord (cols : List (String × ColMeta)) (item : RawItem)
    (name : String) : Except String DealRecord :=
  let close_date_raw := find_column item cols ["close date", "actual close", "close date (a)"]
  let tentative_date_raw := find_column item cols ["tentative", "expected close"]
  let created_raw := find_column item cols ["created", "creation"]
  let close_step : Except String (Option Date) :=
    match normalize_date close_date_raw with
    | Except.error e => Except.error e
    | Except.ok (some dt) => Except.ok (some dt)
    | Except.ok Option.none => normalize_date tentative_date_raw
  match close_step with
  | Except.error e => Except.error e
  | Except.ok close_date =>
    match normalize_date created_raw with
    | Except.error e => Except.error e
    | Except.ok created_date =>
      Except.ok (buildDealRecordCore cols item name close_date created_date)

/-- `clean_deals_df` (data_cleaner.py): one canonical record per raw item,
skipping header-like rows (`if not name or name.lower() in ("deal name",
"")`); an uncaught exception from any kept row propagates, aborting the
whole batch with no records (the trailing `pd.to_datetime` pass is the
identity here because dates are already typed). -/
def clean_deals_df (raw_items : List RawItem) (schema : Schema) :
    Except String (List DealRecord) :=
  match raw_items with
  | [] => Except.ok []
  | item :: rest =>
    let name := pyStrip (pyStr (itemGet item "_item_name"))
    if name = "" ∨ pyLower name = "deal name" ∨ pyLower name = "" then
      clean_deals_df rest schema
    else
      match buildDealRecord schema.columns item name with
      | Except.error e => Except.error e
      | Except.ok r =>
        match clean_deals_df rest schema with
        | Except.error e => Except.error e
        | Except.ok rs => Except.ok (r :: rs)

/-- A canonical work-order record (one row of the cleaned Work Orders frame). -/
structure WORecord where
  wo_name : String
  deal_name_linked : String
  sector : String
  exec_status : String
  is_active : Bool
  amount_excl_gst : ℚ
  billed_excl_gst : ℚ
  unbilled_amount : ℚ
  wo_status : String
  nature_of_work : String
  owner_code : String
  start_date : Option Date
  end_date : Option Date
deriving DecidableEq, Repr

/-- The record built from one kept work-orders-board item, given its
already-parsed start and end dates (the pure part of the loop body of
`clean_workorders_df`). -/
def buildWORecordCore (cols : List (String × ColMeta)) (item : RawItem)
    (name : String) (start_date end_date : Option Date) : WORecord :=
  let deal_name_raw := find_column item cols ["deal name", "deal"]
  let exec_status_raw := find_column item cols ["execution status", "exec status", "status"]
  let sector_raw := find_column item cols ["sector"]
  let amount_excl_raw := find_column item cols ["amount in rupees (excl", "excl of gst", "excl. of gst"]
  let amount_incl_raw := find_column item cols ["amount in rupees (incl", "incl of gst"]
  let billed_excl_raw := find_column item cols ["billed value in rupees (excl", "billed value"]
  let wo_status_raw := find_column item cols ["wo status", "billing status", "collection status"]
  let nature_raw := find_column item cols ["nature of work", "nature"]
  let owner_raw := find_column item cols ["bd/kam", "owner", "personnel"]
  -- amount = normalize_revenue(excl) or normalize_revenue(incl)
  let amount :=
    let a := normalize_revenue amount_excl_raw
    if a ≠ 0 then a else normalize_revenue amount_incl_raw
  let billed := normalize_revenue billed_excl_raw
  let exec_status := normalize_text exec_status_raw
  let exec_status_clean :=
    if strContains exec_status "completed" then "Completed"
    else if strContains exec_status "ongoing" || strContains exec_status "executed until" then "Ongoing"
    else if strContains exec_status "not started" then "Not Started"
    else if strContains exec_status "pause" || strContains exec_status "struck" then "Paused"
    else if strContains exec_status "partial" then "Partially Completed"
    else if strContains exec_status "pending" || strContains exec_status "details pending" then "Pending"
    else "Unknown"
  { wo_name := name
    deal_name_linked := if pyTruthy deal_name_raw then pyStrip (pyStr deal_name_raw) else name
    sector := let s := normalize_text sector_raw; if s = "" then "unknown" else s
    exec_status := exec_status_clean
    is_active := ["Ongoing", "Not Started", "Paused", "Partially Completed", "Pending"].contains exec_status_clean
    amount_excl_gst := amount
    billed_excl_gst := billed
    unbilled_amount := max 0 (amount - billed)
    wo_status := normalize_text wo_status_raw
    nature_of_work := pyStrip (pyStr nature_raw)
    owner_code := pyStrip (pyStr owner_raw)
    start_date := start_date
    end_date := end_date }

/-- The full loop body for a kept work-orders-board item: an uncaught
`TypeError` from a date normalization aborts the batch (the record dict
evaluates its start-date entry before its end-date entry). -/
def buildWORecord (cols : List (String × ColMeta)) (item : RawItem)
    (name : String) : Except String WORecord :=
  let start_date_raw := find_column item cols ["probable start", "start date", "date of po"]
  let end_date_raw := find_column item cols ["probable end", "end date", "delivery date"]
  match normalize_date start_date_raw with
  | Except.error e => Except.error e
  | Except.ok sd =>
    match normalize_date end_date_raw with
    | Except.error e => Except.error e
    | Except.ok ed => Except.ok (buildWORecordCore cols item name sd ed)

/-- `clean_workorders_df` (data_cleaner.py): one canonical record per raw
item with a nonempty name; an uncaught exception from any kept row
propagates, aborting the whole batch with no records. -/
def clean_workorders_df (raw_items : List RawItem) (schema : Schema) :
    Except String (List WORecord) :=
  match raw_items with
  | [] => Except.ok []
  | item :: rest =>
    let name := pyStrip (pyStr (itemGet item "_item_name"))
    if name = "" then clean_workorders_df rest schema
    else
      match buildWORecord schema.columns item name with
      | Except.error e => Except.error e
      | Except.ok r =>
        match clean_workorders_df rest schema with
        | Except.error e => Except.error e
        | Except.ok rs => Except.ok (r :: rs)

/-- Error-propagating map over raw items: the first raised exception wins,
otherwise one output per input, in order (the loop semantics shared by both
builders on their kept rows). -/
def mapMRows {α : Type} (f : RawItem → Except String α) :
    List RawItem → Except String (List α)
  | [] => Except.ok []
  | x :: xs =>
    match f x with
    | Except.error e => Except.error e
    | Except.ok r =>
      match mapMRows f xs with
      | Except.error e => Except.error e
      | Except.ok rs => Except.ok (r :: rs)

/-- Round to the nearest integer, ties to even (Python `round` / numpy). -/
def halfEven (x : ℚ) : Int :=
  let n := ⌊x⌋
  let f := x - (n : ℚ)
  if f < 1/2 then n
  else if 1/2 < f then n + 1
  else if n % 2 = 0 then n else n + 1

/-- Python `round(x, 1)`. -/
def py_round1 (q : ℚ) : ℚ :=
  (halfEven (q * 10) : ℚ) / 10

/-- Fixed-point rendering of a nonnegative integer scaled by `10^d`. -/
def fixedOfNat (m : ℕ) (d : ℕ) : String :=
  if d = 0 then natStr m
  else natStr (m / 10 ^ d) ++ "." ++ padZeros (natStr (m % 10 ^ d)) d

/-- Python `f"{q:.df}"`: round half-even at `d` decimals and render. -/
def fmtFixed (q : ℚ) (d : ℕ) : String :=
  let n := halfEven (q * (10 : ℚ) ^ d)
  if n < 0 then "-" ++ fixedOfNat n.natAbs d else fixedOfNat n.natAbs d

/-- Decimal digits of a natural number grouped in threes with commas
(Python `f"{n:,}"`). -/
def commaGroupNat (n : ℕ) : String :=
  let ds := (Nat.toDigits 10 n).reverse
  let chunks := (List.range ((ds.length + 2) / 3)).map
    (fun i => ((ds.drop (3 * i)).take 3).reverse)
  ⟨(String.intercalate "," (chunks.map (fun c => (⟨c⟩ : String))).reverse).data⟩

/-- Python `f"{q:,.0f}"`. -/
def commaFmt (q : ℚ) : String :=
  let n := halfEven q
  if n < 0 then "-" ++ commaGroupNat n.natAbs else commaGroupNat n.natAbs

/-- `_fmt_inr` (analytics.py): Indian-rupee display string. -/
def fmt_inr (value : ℚ) : String :=
  if value = 0 then "₹0"
  else if value ≥ 10000000 then "₹" ++ fmtFixed (value / 10000000) 2 ++ " Cr"
  else if value ≥ 100000 then "₹" ++ fmtFixed (value / 100000) 2 ++ " L"
  else if value ≥ 1000 then "₹" ++ fmtFixed (value / 1000) 1 ++ "K"
  else "₹" ++ commaFmt value

/-- `_current_quarter_bounds` (analytics.py): start and end of the current
financial quarter, given "today". -/
def current_quarter_bounds (today : Date) : Date × Date :=
  let month := today.month
  let year := today.year
  if month = 4 ∨ month = 5 ∨ month = 6 then (⟨year, 4, 1⟩, ⟨year, 6, 30⟩)
  else if month = 7 ∨ month = 8 ∨ month = 9 then (⟨year, 7, 1⟩, ⟨year, 9, 30⟩)
  else if month = 10 ∨ month = 11 ∨ month = 12 then (⟨year, 10, 1⟩, ⟨year, 12, 31⟩)
  else (⟨year, 1, 1⟩, ⟨year, 3, 31⟩)

/-- Truthiness of the optional period argument (`if period:`). -/
def strOptTruthy : Option String → Bool
  | Option.none => false
  | some s => s ≠ ""

/-- `_filter_by_period` (analytics.py) on the deals frame: restrict rows by
`'this_month'`, `'this_quarter'`, `'ytd'`, or pass the frame through.
A null date never satisfies a mask (NaT comparisons are false). -/
def filter_by_period (today : Date) (getDate : DealRecord → Option Date)
    (period : Option String) (df : List DealRecord) : List DealRecord :=
  if period = Option.none ∨ df = [] then df
  else
    match period with
    | some p =>
      if p = "this_month" then
        df.filter (fun r =>
          match getDate r with
          | some dt => dt.year == today.year && dt.month == today.month
          | _ => false)
      else if p = "this_quarter" then
        let (q_start, q_end) := current_quarter_bounds today
        df.filter (fun r =>
          match getDate r with
          | some dt => Date.ble q_start dt && Date.ble dt q_end
          | _ => false)
      else if p = "ytd" then
        let fy_start : Date := ⟨if today.month ≥ 4 then today.year else today.year - 1, 4, 1⟩
        df.filter (fun r =>
          match getDate r with
          | some dt => Date.ble fy_start dt
          | _ => false)
      else df
    | _ => df

/-- Sum of a list of rationals (`Series.sum`, 0 on empty). -/
def sumQ (l : List ℚ) : ℚ :=
  l.foldl (· + ·) 0

/-- Lexicographic code-point comparison on strings (pandas string sort key). -/
def charListLe : List Char → List Char → Bool
  | [], _ => true
  | _ :: _, [] => false
  | a :: as, b :: bs =>
    if a.toNat < b.toNat then true
    else if b.toNat < a.toNat then false
    else charListLe as bs

/-- `a ≤ b` on strings by code points. -/
def strLe (a b : String) : Bool :=
  charListLe a.data b.data

/-- Stable insertion into a sorted list (equal elements keep prior order). -/
def insertLe (le : α → α → Bool) (x : α) : List α → List α
  | [] => [x]
  | y :: ys => if le y x then y :: insertLe le x ys else x :: y :: ys

/-- Stable insertion sort. -/
def sortLe (le : α → α → Bool) (l : List α) : List α :=
  l.foldl (fun acc x => insertLe le x acc) []

/-- Distinct strings in first-appearance order. -/
def distinctStrs (l : List String) : List String :=
  l.foldl (fun acc s => if acc.contains s then acc else acc ++ [s]) []

/-- `groupby(key).sum()`: one row per distinct key, keys sorted ascending. -/
def groupSum (pairs : List (String × ℚ)) : List (String × ℚ) :=
  (sortLe strLe (distinctStrs (pairs.map (fun p => p.1)))).map
    (fun k => (k, sumQ ((pairs.filter (fun p => p.1 = k)).map (fun p => p.2))))

/-- Sort group rows descending by value (`sort_values(ascending=False)`). -/
def sortDescByVal (rows : List (String × ℚ)) : List (String × ℚ) :=
  sortLe (fun a b => decide (b.2 ≤ a.2)) rows

/-- Association lookup with default (`dict.get(k, 0)`). -/
def rowGet (rows : List (String × ℚ)) (k : String) : ℚ :=
  ((rows.find? (fun p => p.1 = k)).map (fun p => p.2)).getD 0

/-- `close_date.dt.to_period("M").astype(str)`: the `"YYYY-MM"` month key. -/
def monthKeyStr (dt : Date) : String :=
  padZeros (natStr dt.year.natAbs) 4 ++ "-" ++ padZeros (natStr dt.month) 2

/-- The payload of a successful revenue rollup.  Fields that only one of the
two return shapes carries are `Option`s (absent dict keys). -/
structure RevenueData where
  closed_total : ℚ
  closed_total_fmt : String
  count : ℕ
  by_sector : List (String × String)
  by_month : List (String × String)
  top_sector : Option String
  top_sector_pct : Option ℚ
  summary : Option String
  period : Option String
deriving DecidableEq, Repr

/-- Result of `revenue_analytics`: an explicit error indicator or a payload. -/
inductive RevenueResult where
  | error (msg : String)
  | result (d : RevenueData)
deriving DecidableEq, Repr

/-- Is the rollup result the explicit error indicator? -/
def RevenueResult.isError : RevenueResult → Bool
  | RevenueResult.error _ => true
  | _ => false

/-- The `Won` subset of the deals frame after the optional period filter,
exactly as `revenue_analytics` computes it. -/
def wonAfterFilter (today : Date) (deals_df : List DealRecord)
    (period : Option String) : List DealRecord :=
  let won := deals_df.filter (fun r => r.status == "Won")
  if strOptTruthy period then
    filter_by_period today (fun r => r.close_date) period won
  else won

/-- `revenue_analytics` (analytics.py): closed-revenue metrics from Won
deals. -/
def revenue_analytics (today : Date) (deals_df : List DealRecord)
    (period : Option String) : RevenueResult :=
  if deals_df = [] then RevenueResult.error "No deals data available."
  else
    let won := wonAfterFilter today deals_df period
    if won = [] then
      RevenueResult.result
        { closed_total := 0
          closed_total_fmt := "₹0"
          by_sector := []
          by_month := []
          count := 0
          top_sector := Option.none
          top_sector_pct := Option.none
          summary := some "No Won deals found for the selected period."
          period := Option.none }
    else
      let closed_total := sumQ (won.map (fun r => r.deal_value))
      let by_sector := sortDescByVal (groupSum (won.map (fun r => (r.sector, r.deal_value))))
      let by_sector_fmt := by_sector.map (fun p => (p.1, fmt_inr p.2))
      let won_with_date := won.filter (fun r => r.close_date.isSome)
      let by_month_fmt :=
        if won_with_date = [] then []
        else
          (groupSum (won_with_date.map
            (fun r => (monthKeyStr (r.close_date.getD ⟨0, 0, 0⟩), r.deal_value)))).map
            (fun p => (p.1, fmt_inr p.2))
      let top_sector := match by_sector with | [] => "N/A" | p :: _ => p.1
      let top_sector_pct :=
        if closed_total > 0 then rowGet by_sector top_sector / closed_total * 100 else 0
      RevenueResult.result
        { closed_total := closed_total
          closed_total_fmt := fmt_inr closed_total
          count := won.length
          by_sector := by_sector_fmt
          by_month := by_month_fmt
          top_sector := some top_sector
          top_sector_pct := some (py_round1 top_sector_pct)
          summary := Option.none
          period := some (if strOptTruthy period then period.getD "" else "all time") }

/-- Per-sector row of the cross-board comparison: formatted won-pipeline
value, formatted work-order value, realization-rate percentage. -/
structure SectorPerf where
  won_pipeline : String
  wo_value : String
  realization_rate_pct : ℚ
deriving DecidableEq, Repr

/-- The payload of a successful cross-board rollup. -/
structure CrossData where
  won_deals_count : ℕ
  conversion_rate_pct : ℚ
  wo_coverage_rate_pct : ℚ
  total_pipeline : String
  closed_revenue : String
  total_wo_value : String
  sector_performance : List (String × SectorPerf)
deriving DecidableEq, Repr

/-- Result of `cross_board_analysis`. -/
inductive CrossResult where
  | error (msg : String)
  | result (d : CrossData)
deriving DecidableEq, Repr

/-- Is the cross-board result the explicit error indicator? -/
def CrossResult.isError : CrossResult → Bool
  | CrossResult.error _ => true
  | _ => false

/-- The win-rate percentage of a successful cross-board result (0 on error). -/
def CrossResult.winRateOf : CrossResult → ℚ
  | CrossResult.result d => d.conversion_rate_pct
  | _ => 0

/-- The coverage-rate percentage of a successful cross-board result
(0 on error). -/
def CrossResult.coverageOf : CrossResult → ℚ
  | CrossResult.result d => d.wo_coverage_rate_pct
  | _ => 0

/-- The per-sector rows of a successful cross-board result ([] on error). -/
def CrossResult.sectorPerfOf : CrossResult → List (String × SectorPerf)
  | CrossResult.result d => d.sector_performance
  | _ => []

/-- The normalized-name linkage set of `cross_board_analysis`: distinct
normalized Won-deal names that also occur among the distinct normalized
work-order linked names (`won_names & wo_names`). -/
def crossMatched (deals_df : List DealRecord) (workorders_df : List WORecord) :
    List String :=
  let won := deals_df.filter (fun r => r.status == "Won")
  let won_names := distinctStrs (won.map (fun r => pyLower (pyStrip r.deal_name)))
  let wo_names := distinctStrs (workorders_df.map (fun w => pyLower (pyStrip w.deal_name_linked)))
  won_names.filter (fun n => wo_names.contains n)

/-- `cross_board_analysis` (analytics.py): link the two boards by normalized
deal name and compute conversion metrics. -/
def cross_board_analysis (deals_df : List DealRecord)
    (workorders_df : List WORecord) : CrossResult :=
  if deals_df = [] ∨ workorders_df = [] then
    CrossResult.error "Both deals and work orders data are required for cross-board analysis."
  else
    let won := deals_df.filter (fun r => r.status == "Won")
    let conversion_count := (crossMatched deals_df workorders_df).length
    let total_open_closed :=
      (deals_df.filter (fun r => r.status == "Open" || r.status == "Won")).length
    let won_count := won.length
    let conversion_rate :=
      if total_open_closed > 0 then py_round1 (100 * won_count / (total_open_closed : ℚ)) else 0
    let wo_coverage_rate :=
      if won_count > 0 then py_round1 (100 * conversion_count / (won_count : ℚ)) else 0
    let total_pipeline :=
      sumQ ((deals_df.filter (fun r => r.status == "Open")).map (fun r => r.deal_value))
    let total_closed := sumQ (won.map (fun r => r.deal_value))
    let total_wo_value := sumQ (workorders_df.map (fun w => w.amount_excl_gst))
    let won_by_sector := groupSum (won.map (fun r => (r.sector, r.deal_value)))
    let wo_by_sector := groupSum (workorders_df.map (fun w => (w.sector, w.amount_excl_gst)))
    -- pd.concat(axis=1).fillna(0): outer join on the sorted union of sectors
    let sectors :=
      sortLe strLe (distinctStrs ((won_by_sector.map (fun p => p.1)) ++ (wo_by_sector.map (fun p => p.1))))
    let sector_performance := sectors.map (fun s =>
      let wv := rowGet won_by_sector s
      let wov := rowGet wo_by_sector s
      let rr := if wv > 0 then py_round1 (wov / wv * 100) else 0
      (s, { won_pipeline := fmt_inr wv
            wo_value := fmt_inr wov
            realization_rate_pct := rr : SectorPerf }))
    CrossResult.result
      { won_deals_count := won_count
        conversion_rate_pct := conversion_rate
        wo_coverage_rate_pct := wo_coverage_rate
        total_pipeline := fmt_inr total_pipeline
        closed_revenue := fmt_inr total_closed
        total_wo_value := fmt_inr total_wo_value
        sector_performance := sector_performance }

/-- The coverage-rate numerator as the specification document words it: the
count of **Won deal rows** whose normalized name appears among the work
orders' normalized linked-deal names.  The source instead intersects the
**distinct** name sets, so the two disagree when Won deals share a name. -/
def coverageNumeratorSpec (deals_df : List DealRecord)
    (workorders_df : List WORecord) : ℕ :=
  ((deals_df.filter (fun r => r.status == "Won")).filter (fun r =>
    (workorders_df.map (fun w => pyLower (pyStrip w.deal_name_linked))).contains
      (pyLower (pyStrip r.deal_name)))).length

/-- The caveats dictionary produced by `compute_caveats`: the deals keys are
either all present or all absent, likewise the work-order keys; an `Option`
field models key presence. -/
structure Caveats where
  deals_missing_revenue_pct : Option ℚ
  deals_missing_sector_pct : Option ℚ
  deals_missing_close_date_pct : Option ℚ
  deals_total : Option ℕ
  wo_missing_amount_pct : Option ℚ
  wo_missing_sector_pct : Option ℚ
  wo_total : Option ℕ
deriving DecidableEq, Repr

/-- Truthiness of the caveats dict (`if dq:`): false iff no key is present. -/
def Caveats.truthy (c : Caveats) : Bool :=
  c.deals_missing_revenue_pct.isSome || c.deals_missing_sector_pct.isSome ||
    c.deals_missing_close_date_pct.isSome || c.deals_total.isSome ||
    c.wo_missing_amount_pct.isSome || c.wo_missing_sector_pct.isSome ||
    c.wo_total.isSome

/-- Python `sep.join(lines)`. -/
def joinSep (sep : String) : List String → String
  | [] => ""
  | [x] => x
  | x :: y :: rest => x ++ sep ++ joinSep sep (y :: rest)

/-- `format_caveats_text` (data_cleaner.py): the four-signal warning block,
empty when no signal exceeds its threshold. -/
def format_caveats_text (caveats : Caveats) : String :=
  let lines : List String :=
    (if caveats.deals_missing_revenue_pct.getD 0 > 10 then
      ["⚠️ " ++ pyFloatRepr (caveats.deals_missing_revenue_pct.getD 0) ++
        "% of deals have no deal value — revenue figures may be understated."]
     else []) ++
    (if caveats.deals_missing_sector_pct.getD 0 > 10 then
      ["⚠️ " ++ pyFloatRepr (caveats.deals_missing_sector_pct.getD 0) ++
        "% of deals have no sector — sector breakdowns are partial."]
     else []) ++
    (if caveats.deals_missing_close_date_pct.getD 0 > 20 then
      ["⚠️ " ++ pyFloatRepr (caveats.deals_missing_close_date_pct.getD 0) ++
        "% of deals have no close date — time-based filters may miss some deals."]
     else []) ++
    (if caveats.wo_missing_amount_pct.getD 0 > 10 then
      ["⚠️ " ++ pyFloatRepr (caveats.wo_missing_amount_pct.getD 0) ++
        "% of work orders have no amount — revenue from operations may be understated."]
     else [])
  if lines.isEmpty then "" else joinSep "\n" lines

/-- Python `str.title()` (ASCII letters). -/
def pyTitleGo : Bool → List Char → List Char
  | _, [] => []
  | prev, c :: cs =>
    if c.isAlpha then (if prev then c.toLower else c.toUpper) :: pyTitleGo true cs
    else c :: pyTitleGo false cs

/-- Python `str.title()`. -/
def pyTitle (s : String) : String :=
  ⟨pyTitleGo false s.data⟩

/-- The `pipeline` section of a leadership-update dict. -/
structure UpdatePipeline where
  total_open_pipeline : String
  weighted_pipeline : String
  closing_this_quarter : String
  by_sector : List (String × String)
deriving DecidableEq, Repr

/-- The `revenue` section of a leadership-update dict. -/
structure UpdateRevenue where
  closed_ytd : String
  top_sector : String
  top_sector_share_pct : ℚ
deriving DecidableEq, Repr

/-- The `operations` section of a leadership-update dict. -/
structure UpdateOperations where
  active_work_orders : ℕ
  completed_work_orders : ℕ
  backlog_value : String
  operational_risk : String
  risk_note : String
deriving DecidableEq, Repr

/-- The `conversion` section of a leadership-update dict. -/
structure UpdateConversion where
  won_to_total_rate_pct : ℚ
  wo_coverage_rate_pct : ℚ
deriving DecidableEq, Repr

/-- The leadership-update dict assembled by `generate_leadership_update`. -/
structure Update where
  title : String
  generated_at : String
  pipeline : UpdatePipeline
  revenue : UpdateRevenue
  operations : UpdateOperations
  conversion : UpdateConversion
  data_quality : Caveats
deriving DecidableEq, Repr

/-- The opening block of the rendered leadership report (title, timestamp,
pipeline section). -/
def fluHead (update : Update) : List String :=
  ["## 📊 " ++ update.title,
   "*Generated: " ++ update.generated_at ++ "*",
   "",
   "### 💰 Pipeline",
   "- **Total Open Pipeline:** " ++ update.pipeline.total_open_pipeline,
   "- **Weighted Pipeline:** " ++ update.pipeline.weighted_pipeline,
   "- **Closing This Quarter:** " ++ update.pipeline.closing_this_quarter]

/-- The conditional pipeline-by-sector block (top five sectors). -/
def fluSector (update : Update) : List String :=
  if update.pipeline.by_sector ≠ [] then
    ["- **By Sector:**"] ++
      (update.pipeline.by_sector.take 5).map
        (fun p => "  - " ++ pyTitle p.1 ++ ": " ++ p.2)
  else []

/-- The revenue block of the rendered leadership report. -/
def fluRevenue (update : Update) : List String :=
  ["",
   "### 📈 Revenue (YTD)",
   "- **Closed Revenue:** " ++ update.revenue.closed_ytd,
   "- **Top Sector:** " ++ pyTitle update.revenue.top_sector ++ " (" ++
     pyFloatRepr update.revenue.top_sector_share_pct ++ "% of closed revenue)"]

/-- The operations block of the rendered leadership report. -/
def fluOperations (update : Update) : List String :=
  ["",
   "### 🔧 Operations",
   "- **Active Work Orders:** " ++ natStr update.operations.active_work_orders,
   "- **Completed Work Orders:** " ++ natStr update.operations.completed_work_orders,
   "- **Unbilled Backlog:** " ++ update.operations.backlog_value,
   "- **Operational Risk:** " ++ update.operations.operational_risk ++ " — " ++
     update.operations.risk_note]

/-- The conversion block of the rendered leadership report. -/
def fluConversion (update : Update) : List String :=
  ["",
   "### 🔄 Conversion",
   "- **Deal Win Rate:** " ++ pyFloatRepr update.conversion.won_to_total_rate_pct ++ "%",
   "- **Won → Work Order Coverage:** " ++
     pyFloatRepr update.conversion.wo_coverage_rate_pct ++ "%"]

/-- The conditional data-caveats block: present only when the caveats dict is
truthy and at least one of its **three** checked signals (missing revenue,
missing sector, missing work-order amount) exceeds 10. -/
def fluCaveats (update : Update) : List String :=
  let dq := update.data_quality
  if dq.truthy then
    let notes : List String :=
      (if dq.deals_missing_revenue_pct.getD 0 > 10 then
        [pyFloatRepr (dq.deals_missing_revenue_pct.getD 0) ++
          "% of deals have no value (revenue may be understated)"]
       else []) ++
      (if dq.deals_missing_sector_pct.getD 0 > 10 then
        [pyFloatRepr (dq.deals_missing_sector_pct.getD 0) ++
          "% of deals have no sector (sector breakdown is partial)"]
       else []) ++
      (if dq.wo_missing_amount_pct.getD 0 > 10 then
        [pyFloatRepr (dq.wo_missing_amount_pct.getD 0) ++
          "% of work orders have no amount"]
       else [])
    if notes ≠ [] then
      ["", "### ⚠️ Data Caveats"] ++ notes.map (fun n => "- " ++ n)
    else []
  else []

/-- The `lines` list built by `format_leadership_update` (analytics.py),
assembled from the successive `lines += …` blocks of the source; the rendered
report is these lines joined with newlines. -/
def format_leadership_update_lines (update : Update) : List String :=
  fluHead update ++ fluSector update ++ fluRevenue update ++
    fluOperations update ++ fluConversion update ++ fluCaveats update

/-- `format_leadership_update` (analytics.py): the rendered markdown report. -/
def format_leadership_update (update : Update) : String :=
  joinSep "\n" (format_leadership_update_lines update)

/-! ### Sample data for concrete witnesses and counterexamples -/

/-- A small deals-board schema with realistically titled columns. -/
def dealsSchemaW : Schema :=
  ⟨"Deals",
   [("c_status", ⟨"Deal Status", "text"⟩),
    ("c_stage", ⟨"Stage", "text"⟩),
    ("c_val", ⟨"Deal Value (Masked)", "text"⟩),
    ("c_sec", ⟨"Sector", "text"⟩),
    ("c_close", ⟨"Actual Close Date", "text"⟩),
    ("c_prob", ⟨"Probability of Closure", "text"⟩)]⟩

/-- A well-formed deals-board raw item. -/
def dealItemW : RawItem :=
  [("_item_name", PyVal.str "Alpha"), ("c_status", PyVal.str "Won"),
   ("c_val", PyVal.str "10k"), ("c_prob", PyVal.str "High"),
   ("c_close", PyVal.str "2025-06-01")]

/-- A deals-board raw item whose value cell holds a negative amount. -/
def dealItemNeg : RawItem :=
  [("_item_name", PyVal.str "NegDeal"), ("c_val", PyVal.str "-100")]

/-- A small work-orders-board schema with realistically titled columns. -/
def woSchemaW : Schema :=
  ⟨"Work Orders",
   [("w_deal", ⟨"Deal Name", "text"⟩),
    ("w_exec", ⟨"Execution Status", "text"⟩),
    ("w_sec", ⟨"Sector", "text"⟩),
    ("w_amt", ⟨"Amount in Rupees (Excl of GST)", "text"⟩),
    ("w_billed", ⟨"Billed Value in Rupees (Excl of GST)", "text"⟩)]⟩

/-- A work-orders raw item with no linked-deal cell. -/
def woItemW : RawItem :=
  [("_item_name", PyVal.str "Alpha"), ("w_exec", PyVal.str "Ongoing"),
   ("w_amt", PyVal.str "5000")]

/-- A work-orders raw item with negative amount and billed cells. -/
def woItemNeg : RawItem :=
  [("_item_name", PyVal.str "NegWO"), ("w_amt", PyVal.str "-100"),
   ("w_billed", PyVal.str "-50")]

/-- A raw item named exactly like the deals board's header text. -/
def headerItem : RawItem := [("_item_name", PyVal.str "Deal Name")]

/-- A Won deal closed 2025-06-01 worth 5 L. -/
def dWonA : DealRecord :=
  ⟨"A", "", "", "Won", "", "energy", 500000, 0, 0, some ⟨2025, 6, 1⟩, Option.none, ""⟩

/-- An Open deal worth 20 L at probability one half. -/
def dOpenB : DealRecord :=
  ⟨"B", "", "", "Open", "", "energy", 2000000, 1/2, 1000000, Option.none, Option.none, ""⟩

/-- A second Won deal with the same name as `dWonA`. -/
def dWonA2 : DealRecord :=
  ⟨"A", "", "", "Won", "", "mining", 300000, 0, 0, Option.none, Option.none, ""⟩

/-- A deal whose close date lies in the future. -/
def dFuture : DealRecord :=
  ⟨"F", "", "", "Won", "", "energy", 100000, 0, 0, some ⟨2027, 1, 1⟩, Option.none, ""⟩

/-- A completed work order linked (by name) to deal `A`. -/
def wLinkedA : WORecord :=
  ⟨"WO-1", "A", "energy", "Completed", false, 400000, 0, 400000, "", "", "",
   Option.none, Option.none⟩

/-- A Won deal named `Alpha`, the name of `woItemW`. -/
def dWonAlpha : DealRecord :=
  ⟨"Alpha", "", "", "Won", "", "energy", 5000, 0, 0, Option.none, Option.none, ""⟩

/-- A caveats dict where only the close-date signal exceeds its threshold. -/
def cavCloseOnly : Caveats :=
  ⟨Option.none, Option.none, some 50, Option.none, Option.none, Option.none, Option.none⟩

/-- A leadership update whose only data-quality signal is missing close
dates. -/
def updCloseOnly : Update :=
  ⟨"Leadership Update", "01 Jan 2026, 09:00 IST",
   ⟨"₹0", "₹0", "₹0", []⟩, ⟨"₹0", "N/A", 0⟩, ⟨0, 0, "₹0", "Low", "ok"⟩,
   ⟨0, 0⟩, cavCloseOnly⟩

/-- A deals-board raw item whose close-date cell is JSON with a numeric
`date` payload — the source raises an uncaught `TypeError` on it. -/
def badDateItem : RawItem :=
  [("_item_name", PyVal.str "BadDate"), ("c_close", PyVal.str "\x7b\"date\": 5\x7d")]

/-- The record the deals builder produces for `dealItemW`. -/
def dealRecW : DealRecord :=
  buildDealRecordCore dealsSchemaW.columns dealItemW "Alpha" (some ⟨2025, 6, 1⟩) Option.none

/-- The record the deals builder produces for `dealItemNeg`. -/
def dealRecNeg : DealRecord :=
  buildDealRecordCore dealsSchemaW.columns dealItemNeg "NegDeal" Option.none Option.none

/-- The record the work-orders builder produces for `woItemW`. -/
def woRecW : WORecord :=
  buildWORecordCore woSchemaW.columns woItemW "Alpha" Option.none Option.none

/-- The record the work-orders builder produces for `woItemNeg`. -/
def woRecNeg : WORecord :=
  buildWORecordCore woSchemaW.columns woItemNeg "NegWO" Option.none Option.none

/-- The record the work-orders builder produces for `headerItem`. -/
def woRecHeader : WORecord :=
  buildWORecordCore woSchemaW.columns headerItem "Deal Name" Option.none Option.none

/-! ### Helper lemmas -/

/-- `distinctStrs` preserves membership. -/
theorem mem_distinctStrs_aux (l : List String) (acc : List String) (a : String) :
    a ∈ l.foldl (fun acc s => if acc.contains s then acc else acc ++ [s]) acc ↔
      a ∈ acc ∨ a ∈ l := by
  induction l generalizing acc with
  | nil => simp
  | cons s t ih =>
    by_cases h : acc.contains s
    · have hs : s ∈ acc := List.elem_iff.mp h
      simp only [List.foldl_cons, h, if_true, ih, List.mem_cons]
      constructor
      · tauto
      · rintro (ha | rfl | ha) <;> tauto
    · rw [Bool.not_eq_true] at h
      simp only [List.foldl_cons, h, Bool.false_eq_true, if_false, ih, List.mem_append,
        List.mem_singleton, List.mem_cons]
      tauto

/-- Membership in `distinctStrs`. -/
theorem mem_distinctStrs (l : List String) (a : String) :
    a ∈ distinctStrs l ↔ a ∈ l := by
  unfold distinctStrs
  rw [mem_distinctStrs_aux]
  simp

/-- A successful deals-row build is the pure record at some parsed dates. -/
theorem buildDealRecord_ok (cols : List (String × ColMeta)) (item : RawItem)
    (name : String) (r : DealRecord)
    (h : buildDealRecord cols item name = Except.ok r) :
    ∃ cd crd, r = buildDealRecordCore cols item name cd crd := by
  rw [buildDealRecord] at h
  split at h
  · exact absurd h (by simp)
  · split at h
    · exact absurd h (by simp)
    · cases h
      exact ⟨_, _, rfl⟩

/-- A successful work-orders-row build is the pure record at some parsed
dates. -/
theorem buildWORecord_ok (cols : List (String × ColMeta)) (item : RawItem)
    (name : String) (w : WORecord)
    (h : buildWORecord cols item name = Except.ok w) :
    ∃ sd ed, w = buildWORecordCore cols item name sd ed := by
  rw [buildWORecord] at h
  split at h
  · exact absurd h (by simp)
  · split at h
    · exact absurd h (by simp)
    · cases h
      exact ⟨_, _, rfl⟩

/-- Every record of a successful deals batch is the pure per-item record of
one of the raw items. -/
theorem clean_deals_mem (raw : List RawItem) (schema : Schema)
    (out : List DealRecord) (h : clean_deals_df raw schema = Except.ok out) :
    ∀ r ∈ out, ∃ item ∈ raw, ∃ cd crd,
      r = buildDealRecordCore schema.columns item
        (pyStrip (pyStr (itemGet item "_item_name"))) cd crd := by
  induction raw generalizing out with
  | nil =>
    simp only [clean_deals_df] at h
    cases h
    intro r hr
    cases hr
  | cons item rest ih =>
    simp only [clean_deals_df] at h
    by_cases hg : pyStrip (pyStr (itemGet item "_item_name")) = "" ∨
        pyLower (pyStrip (pyStr (itemGet item "_item_name"))) = "deal name" ∨
        pyLower (pyStrip (pyStr (itemGet item "_item_name"))) = ""
    · rw [if_pos hg] at h
      intro r hr
      obtain ⟨it, hit, hrec⟩ := ih out h r hr
      exact ⟨it, List.mem_cons_of_mem _ hit, hrec⟩
    · rw [if_neg hg] at h
      cases hb : buildDealRecord schema.columns item
          (pyStrip (pyStr (itemGet item "_item_name"))) with
      | error e => rw [hb] at h; exact absurd h (by simp)
      | ok r0 =>
        rw [hb] at h
        cases hrest : clean_deals_df rest schema with
        | error e => rw [hrest] at h; exact absurd h (by simp)
        | ok rs =>
          rw [hrest] at h
          cases h
          intro r hr
          rcases List.mem_cons.mp hr with rfl | hr
          · obtain ⟨cd, crd, hcore⟩ := buildDealRecord_ok _ _ _ _ hb
            exact ⟨item, List.mem_cons_self _ _, cd, crd, hcore⟩
          · obtain ⟨it, hit, hrec⟩ := ih rs hrest r hr
            exact ⟨it, List.mem_cons_of_mem _ hit, hrec⟩

/-- Every record of a successful work-orders batch is the pure per-item
record of one of the raw items. -/
theorem clean_workorders_mem (raw : List RawItem) (schema : Schema)
    (out : List WORecord) (h : clean_workorders_df raw schema = Except.ok out) :
    ∀ w ∈ out, ∃ item ∈ raw, ∃ sd ed,
      w = buildWORecordCore schema.columns item
        (pyStrip (pyStr (itemGet item "_item_name"))) sd ed := by
  induction raw generalizing out with
  | nil =>
    simp only [clean_workorders_df] at h
    cases h
    intro w hw
    cases hw
  | cons item rest ih =>
    simp only [clean_workorders_df] at h
    by_cases hg : pyStrip (pyStr (itemGet item "_item_name")) = ""
    · rw [if_pos hg] at h
      intro w hw
      obtain ⟨it, hit, hrec⟩ := ih out h w hw
      exact ⟨it, List.mem_cons_of_mem _ hit, hrec⟩
    · rw [if_neg hg] at h
      cases hb : buildWORecord schema.columns item
          (pyStrip (pyStr (itemGet item "_item_name"))) with
      | error e => rw [hb] at h; exact absurd h (by simp)
      | ok w0 =>
        rw [hb] at h
        cases hrest : clean_workorders_df rest schema with
        | error e => rw [hrest] at h; exact absurd h (by simp)
        | ok ws =>
          rw [hrest] at h
          cases h
          intro w hw
          rcases List.mem_cons.mp hw with rfl | hw
          · obtain ⟨sd, ed, hcore⟩ := buildWORecord_ok _ _ _ _ hb
            exact ⟨item, List.mem_cons_self _ _, sd, ed, hcore⟩
          · obtain ⟨it, hit, hrec⟩ := ih ws hrest w hw
            exact ⟨it, List.mem_cons_of_mem _ hit, hrec⟩

/-! ### Claims -/

/--
Claim C1: the amount normalizer maps the documented examples exactly —
`normalize_revenue "10k" = 10000`, `normalize_revenue "₹1,20,000" = 120000`,
`normalize_revenue "2.5Cr" = 25000000`, `normalize_revenue "" = 0`,
`normalize_revenue None = 0`.  The fail-soft clause (a number for every
input, 0 on failure, never an exception) is embedded in the type of
`normalize_revenue : PyVal → ℚ`, a total function whose only failure mode is
the literal result 0.
-/
theorem C1_normalize_revenue_examples :
    normalize_revenue (PyVal.str "10k") = 10000 ∧
    normalize_revenue (PyVal.str "₹1,20,000") = 120000 ∧
    normalize_revenue (PyVal.str "2.5Cr") = 25000000 ∧
    normalize_revenue (PyVal.str "") = 0 ∧
    normalize_revenue PyVal.none = 0 := by
  refine ⟨?_, ?_, ?_, ?_, ?_⟩ <;> with_unfolding_all rfl

/--
Claim C7: every record emitted by the deals cleaning pipeline satisfies
`weighted_value = deal_value × probability` exactly; the builder computes
the product and no other path assigns the field.
-/
theorem C7_weighted_value_invariant (raw : List RawItem) (schema : Schema)
    (out : List DealRecord) (h : clean_deals_df raw schema = Except.ok out) :
    ∀ r ∈ out, r.weighted_value = r.deal_value * r.probability := by
  intro r hr
  obtain ⟨item, _, cd, crd, hrec⟩ := clean_deals_mem raw schema out h r hr
  subst hrec
  rfl

/-- Concrete instantiation of `C7_weighted_value_invariant` on a well-formed
item. -/
theorem C7_weighted_value_witness :
    dealRecW.weighted_value = dealRecW.deal_value * dealRecW.probability :=
  C7_weighted_value_invariant [dealItemW] dealsSchemaW [dealRecW]
    (by with_unfolding_all rfl) dealRecW (List.mem_singleton_self _)

/-- A fixed "today" used by concrete witnesses. -/
def todayW : Date := ⟨2025, 10, 12⟩

/-- A fixed "today" used by the period-filter counterexample. -/
def todayC2 : Date := ⟨2026, 10, 12⟩

/--
Claim C6: the revenue rollup returns its explicit error indicator exactly when
the unfiltered deals input is empty; a non-empty input whose Won subset after
period filtering is empty yields the zero-valued non-error result with
`closed_total = 0`, `count = 0` and empty breakdowns.
-/
theorem C6_revenue_rollup_empty_behavior (today : Date) (df : List DealRecord)
    (period : Option String) :
    ((revenue_analytics today df period).isError = true ↔ df = []) ∧
    (df ≠ [] → wonAfterFilter today df period = [] →
      revenue_analytics today df period = RevenueResult.result
        ⟨0, "₹0", 0, [], [], Option.none, Option.none,
         some "No Won deals found for the selected period.", Option.none⟩) := by
  constructor
  · constructor
    · intro h
      by_contra hdf
      rw [revenue_analytics, if_neg hdf] at h
      by_cases hw : wonAfterFilter today df period = [] <;>
        simp [hw, RevenueResult.isError] at h
    · intro h
      subst h
      simp [revenue_analytics, RevenueResult.isError]
  · intro hdf hwon
    rw [revenue_analytics, if_neg hdf]
    simp [hwon]

/-- Concrete instantiation of `C6_revenue_rollup_empty_behavior`: a deals set
whose only deal is Open has an empty Won subset and yields the zero result. -/
theorem C6_revenue_rollup_empty_witness :
    revenue_analytics todayW [dOpenB] Option.none = RevenueResult.result
      ⟨0, "₹0", 0, [], [], Option.none, Option.none,
       some "No Won deals found for the selected period.", Option.none⟩ :=
  (C6_revenue_rollup_empty_behavior todayW [dOpenB] Option.none).2
    (by simp) (by with_unfolding_all rfl)

/--
Claim C4: deal status canonicalization precedence — a normalized status equal
to `won`/`dead`/`on hold` short-circuits to the corresponding canonical value
regardless of the stage; otherwise the normalized stage is matched against the
fixed won-stage, dead-stage and open-stage sets, defaulting to `Open`.
-/
theorem C4_deal_status_precedence :
    (∀ status stage : PyVal,
      normalize_text status = "won" → map_deal_status status stage = "Won") ∧
    (∀ status stage : PyVal,
      normalize_text status = "dead" → map_deal_status status stage = "Dead") ∧
    (∀ status stage : PyVal,
      normalize_text status = "on hold" → map_deal_status status stage = "On Hold") ∧
    (∀ status stage : PyVal,
      normalize_text status ≠ "won" → normalize_text status ≠ "dead" →
      normalize_text status ≠ "on hold" →
      ((WON_STAGES.contains (normalize_text stage) = true →
          map_deal_status status stage = "Won") ∧
       (DEAD_STAGES.contains (normalize_text stage) = true →
          map_deal_status status stage = "Dead") ∧
       (OPEN_STAGES.contains (normalize_text stage) = true →
          map_deal_status status stage = "Open") ∧
       (WON_STAGES.contains (normalize_text stage) = false →
        DEAD_STAGES.contains (normalize_text stage) = false →
          map_deal_status status stage = "Open"))) := by
  have notMemOfFalse : ∀ (l : List String) (a : String), l.contains a = false → a ∉ l := by
    intro l a h hm
    have h2 : l.contains a = true := List.elem_iff.mpr hm
    rw [h] at h2
    cases h2
  have hdisj : ∀ st : String, st ∈ DEAD_STAGES → st ∉ WON_STAGES := by
    intro st h
    simp only [DEAD_STAGES, List.mem_cons, List.not_mem_nil, or_false] at h
    rcases h with rfl | rfl | rfl | rfl <;> decide
  refine ⟨?_, ?_, ?_, ?_⟩
  · intro status stage h; simp [map_deal_status, h]
  · intro status stage h; simp [map_deal_status, h]
  · intro status stage h; simp [map_deal_status, h]
  · intro status stage h1 h2 h3
    refine ⟨?_, ?_, ?_, ?_⟩
    · intro hw
      simp [map_deal_status, h1, h2, h3, List.elem_iff.mp hw]
    · intro hd
      have hd' := List.elem_iff.mp hd
      simp [map_deal_status, h1, h2, h3, hd', hdisj _ hd']
    · intro ho
      have ho' := List.elem_iff.mp ho
      have ho2 := ho'
      simp only [OPEN_STAGES, List.mem_cons, List.not_mem_nil, or_false] at ho2
      have hw : normalize_text stage ∉ WON_STAGES := by
        rcases ho2 with hh | hh | hh | hh | hh | hh <;> (rw [hh]; decide)
      have hd : normalize_text stage ∉ DEAD_STAGES := by
        rcases ho2 with hh | hh | hh | hh | hh | hh <;> (rw [hh]; decide)
      simp [map_deal_status, h1, h2, h3, hw, hd]
    · intro hw hd
      simp [map_deal_status, h1, h2, h3, notMemOfFalse _ _ hw, notMemOfFalse _ _ hd]

/-- Concrete instantiation of `C4_deal_status_precedence`: an explicit `won`
status combined with a dead-stage keyword still canonicalizes to `Won`. -/
theorem C4_deal_status_witness :
    map_deal_status (PyVal.str "Won") (PyVal.str "L. Project Lost") = "Won" ∧
    DEAD_STAGES.contains (normalize_text (PyVal.str "L. Project Lost")) = true :=
  ⟨C4_deal_status_precedence.1 (PyVal.str "Won") (PyVal.str "L. Project Lost")
      (by with_unfolding_all rfl),
   by with_unfolding_all rfl⟩

/--
Claim C2 (amended): filtering with the period token `ytd` retains exactly the
rows whose date field is non-null and on or after April 1 of the current
financial year (prior calendar year when the current month is January–March).
The filter imposes **no upper bound**: rows dated after "now" are also
retained, contrary to the original claim (see `C2_ytd_counterexample`).
-/
theorem C2_ytd_filter_is_lower_bound_only (today : Date)
    (getDate : DealRecord → Option Date) (df : List DealRecord) :
    filter_by_period today getDate (some "ytd") df =
      df.filter (fun r =>
        match getDate r with
        | some dt =>
          Date.ble ⟨if today.month ≥ 4 then today.year else today.year - 1, 4, 1⟩ dt
        | _ => false) := by
  by_cases hdf : df = []
  · subst hdf; simp [filter_by_period]
  · rw [filter_by_period, if_neg (by simp [hdf])]
    rw [if_neg (by decide), if_neg (by decide), if_pos rfl]

/-- Counterexample to claim C2 as stated: with today = 2026-10-12, a deal
dated 2027-01-01 lies strictly after "now", yet the `ytd` filter retains it. -/
theorem C2_ytd_counterexample :
    Date.ble ⟨2027, 1, 1⟩ todayC2 = false ∧
    filter_by_period todayC2 (fun r => r.close_date) (some "ytd") [dFuture] = [dFuture] := by
  exact ⟨by with_unfolding_all rfl, by with_unfolding_all rfl⟩

/-- `pyLower` maps exactly the empty string to the empty string. -/
theorem pyLower_empty_iff (s : String) : pyLower s = "" ↔ s = "" := by
  constructor
  · intro h
    cases s with
    | mk data =>
      have h2 : data.map Char.toLower = [] := congrArg String.data h
      have h3 : data = [] := List.map_eq_nil_iff.mp h2
      subst h3
      rfl
  · rintro rfl
    rfl

/--
Claim C9 (amended): the deals builder drops a raw item exactly when its
stripped item name is empty or case-insensitively equals the literal header
text `deal name`; the work-orders builder drops a raw item exactly when its
stripped name is empty — it has **no** header-text guard (see
`C9_counterexample`).  Each cleaner equals the error-propagating traversal
of the kept items: every kept item yields exactly one record, in order,
unless a kept item's date cell raises the uncaught `TypeError`, which aborts
the whole batch with no records.
-/
theorem C9_header_drop_conditions :
    (∀ (raw : List RawItem) (schema : Schema),
      clean_deals_df raw schema =
        mapMRows (fun item => buildDealRecord schema.columns item
            (pyStrip (pyStr (itemGet item "_item_name"))))
          (raw.filter (fun item =>
            !(pyStrip (pyStr (itemGet item "_item_name")) == "" ||
              pyLower (pyStrip (pyStr (itemGet item "_item_name"))) == "deal name")))) ∧
    (∀ (raw : List RawItem) (schema : Schema),
      clean_workorders_df raw schema =
        mapMRows (fun item => buildWORecord schema.columns item
            (pyStrip (pyStr (itemGet item "_item_name"))))
          (raw.filter (fun item =>
            !(pyStrip (pyStr (itemGet item "_item_name")) == "")))) := by
  constructor
  · intro raw schema
    induction raw with
    | nil => rfl
    | cons item t ih =>
      simp only [clean_deals_df, List.filter_cons]
      by_cases hg : pyStrip (pyStr (itemGet item "_item_name")) = "" ∨
          pyLower (pyStrip (pyStr (itemGet item "_item_name"))) = "deal name" ∨
          pyLower (pyStrip (pyStr (itemGet item "_item_name"))) = ""
      · rw [if_pos hg]
        have hcond : (!(pyStrip (pyStr (itemGet item "_item_name")) == "" ||
            pyLower (pyStrip (pyStr (itemGet item "_item_name"))) == "deal name")) = false := by
          rcases hg with h | h | h
          · simp [h]
          · simp [h]
          · simp [(pyLower_empty_iff _).mp h]
        rw [hcond]
        simpa using ih
      · push_neg at hg
        obtain ⟨h1, h2, _⟩ := hg
        rw [if_neg (by tauto)]
        have hcond : (!(pyStrip (pyStr (itemGet item "_item_name")) == "" ||
            pyLower (pyStrip (pyStr (itemGet item "_item_name"))) == "deal name")) = true := by
          simp [h1, h2]
        rw [hcond]
        simp only [if_true, mapMRows]
        cases hb : buildDealRecord schema.columns item
            (pyStrip (pyStr (itemGet item "_item_name"))) with
        | error e => with_unfolding_all rfl
        | ok r =>
          rw [ih]
          cases mapMRows (fun item => buildDealRecord schema.columns item
              (pyStrip (pyStr (itemGet item "_item_name"))))
            (t.filter (fun item =>
              !(pyStrip (pyStr (itemGet item "_item_name")) == "" ||
                pyLower (pyStrip (pyStr (itemGet item "_item_name"))) == "deal name"))) with
          | error e => rfl
          | ok rs => rfl
  · intro raw schema
    induction raw with
    | nil => rfl
    | cons item t ih =>
      simp only [clean_workorders_df, List.filter_cons]
      by_cases h1 : pyStrip (pyStr (itemGet item "_item_name")) = ""
      · rw [if_pos h1]
        have hcond : (!(pyStrip (pyStr (itemGet item "_item_name")) == "")) = false := by
          simp [h1]
        rw [hcond]
        simpa using ih
      · rw [if_neg h1]
        have hcond : (!(pyStrip (pyStr (itemGet item "_item_name")) == "")) = true := by
          simp [h1]
        rw [hcond]
        simp only [if_true, mapMRows]
        cases hb : buildWORecord schema.columns item
            (pyStrip (pyStr (itemGet item "_item_name"))) with
        | error e => with_unfolding_all rfl
        | ok w =>
          rw [ih]
          cases mapMRows (fun item => buildWORecord schema.columns item
              (pyStrip (pyStr (itemGet item "_item_name"))))
            (t.filter (fun item =>
              !(pyStrip (pyStr (itemGet item "_item_name")) == ""))) with
          | error e => rfl
          | ok ws => rfl

/-- Counterexample to claim C9 as stated: an item named exactly like the
literal header text is dropped by the deals builder but **kept** by the
work-orders builder, which has no header-text guard; moreover a kept
non-header deals item whose date cell is JSON with a numeric `date` payload
raises `TypeError`, so the batch yields no record for it at all. -/
theorem C9_counterexample :
    clean_deals_df [headerItem] dealsSchemaW = Except.ok [] ∧
    clean_workorders_df [headerItem] woSchemaW = Except.ok [woRecHeader] ∧
    woRecHeader.wo_name = "Deal Name" ∧
    pyStrip (pyStr (itemGet badDateItem "_item_name")) ≠ "" ∧
    pyLower (pyStrip (pyStr (itemGet badDateItem "_item_name"))) ≠ "deal name" ∧
    clean_deals_df [badDateItem] dealsSchemaW =
      Except.error "TypeError: strptime() argument 1 must be str" := by
  refine ⟨?_, ?_, ?_, ?_, ?_, ?_⟩
  · with_unfolding_all rfl
  · with_unfolding_all rfl
  · with_unfolding_all rfl
  · exact of_decide_eq_true (by with_unfolding_all rfl)
  · exact of_decide_eq_true (by with_unfolding_all rfl)
  · with_unfolding_all rfl

/--
Claim C3 (amended): the cleaned records' amounts are nonnegative **provided**
every resolved raw amount cell normalizes to a nonnegative number; the
pipeline itself never clamps, so a negative raw amount flows through
unchanged (see `C3_counterexample`).
-/
theorem C3_nonneg_amounts :
    (∀ (raw : List RawItem) (schema : Schema) (out : List DealRecord),
      clean_deals_df raw schema = Except.ok out →
      (∀ item ∈ raw,
        0 ≤ normalize_revenue (find_column item schema.columns ["value", "deal value", "masked"])) →
      ∀ r ∈ out, 0 ≤ r.deal_value) ∧
    (∀ (raw : List RawItem) (schema : Schema) (out : List WORecord),
      clean_workorders_df raw schema = Except.ok out →
      (∀ item ∈ raw,
        0 ≤ normalize_revenue (find_column item schema.columns
            ["amount in rupees (excl", "excl of gst", "excl. of gst"]) ∧
        0 ≤ normalize_revenue (find_column item schema.columns
            ["amount in rupees (incl", "incl of gst"]) ∧
        0 ≤ normalize_revenue (find_column item schema.columns
            ["billed value in rupees (excl", "billed value"])) →
      ∀ w ∈ out, 0 ≤ w.amount_excl_gst ∧ 0 ≤ w.billed_excl_gst) := by
  constructor
  · intro raw schema out h hpos r hr
    obtain ⟨item, hitem, cd, crd, hrec⟩ := clean_deals_mem raw schema out h r hr
    subst hrec
    exact hpos item hitem
  · intro raw schema out h hpos w hw
    obtain ⟨item, hitem, sd, ed, hrec⟩ := clean_workorders_mem raw schema out h w hw
    subst hrec
    obtain ⟨ha, hb, hc⟩ := hpos item hitem
    constructor
    · show (0 : ℚ) ≤
        (if normalize_revenue (find_column item schema.columns
            ["amount in rupees (excl", "excl of gst", "excl. of gst"]) ≠ 0 then
          normalize_revenue (find_column item schema.columns
            ["amount in rupees (excl", "excl of gst", "excl. of gst"])
        else normalize_revenue (find_column item schema.columns
            ["amount in rupees (incl", "incl of gst"]))
      split
      · exact ha
      · exact hb
    · exact hc

/-- Counterexample to claim C3 as stated: a deals-board value cell of
`"-100"` produces a record with `deal_value = -100 < 0`; a work-orders item
with amount `"-100"` and billed `"-50"` produces negative amounts. -/
theorem C3_counterexample :
    ¬ (∀ (out : List DealRecord),
        clean_deals_df [dealItemNeg] dealsSchemaW = Except.ok out →
        ∀ r ∈ out, 0 ≤ r.deal_value) ∧
    ¬ (∀ (out : List WORecord),
        clean_workorders_df [woItemNeg] woSchemaW = Except.ok out →
        ∀ w ∈ out, 0 ≤ w.amount_excl_gst ∧ 0 ≤ w.billed_excl_gst) := by
  constructor
  · intro hall
    have h : clean_deals_df [dealItemNeg] dealsSchemaW = Except.ok [dealRecNeg] := by
      with_unfolding_all rfl
    have hv : dealRecNeg.deal_value = -100 := by
      with_unfolding_all rfl
    have hmem := hall [dealRecNeg] h dealRecNeg (List.mem_singleton_self _)
    rw [hv] at hmem
    norm_num at hmem
  · intro hall
    have h : clean_workorders_df [woItemNeg] woSchemaW = Except.ok [woRecNeg] := by
      with_unfolding_all rfl
    have hv : woRecNeg.amount_excl_gst = -100 := by
      with_unfolding_all rfl
    have hmem := (hall [woRecNeg] h woRecNeg (List.mem_singleton_self _)).1
    rw [hv] at hmem
    norm_num at hmem

/-- Concrete instantiation of `C3_nonneg_amounts` on well-formed items. -/
theorem C3_nonneg_amounts_witness :
    0 ≤ dealRecW.deal_value ∧
    0 ≤ woRecW.amount_excl_gst ∧ 0 ≤ woRecW.billed_excl_gst := by
  refine ⟨?_, ?_⟩
  · exact C3_nonneg_amounts.1 [dealItemW] dealsSchemaW [dealRecW]
      (by with_unfolding_all rfl)
      (by
        intro item hmem
        rw [List.mem_singleton] at hmem
        subst hmem
        exact of_decide_eq_true (by with_unfolding_all rfl))
      dealRecW (List.mem_singleton_self _)
  · exact C3_nonneg_amounts.2 [woItemW] woSchemaW [woRecW]
      (by with_unfolding_all rfl)
      (by
        intro item hmem
        rw [List.mem_singleton] at hmem
        subst hmem
        refine ⟨?_, ?_, ?_⟩ <;> exact of_decide_eq_true (by with_unfolding_all rfl))
      woRecW (List.mem_singleton_self _)

/--
Claim C10: when the resolved linked-deal-name value of a work-order item is
empty or missing, the built record's `deal_name_linked` is the item's own
name; consequently such a work order contributes to the coverage numerator
whenever its own name equals a Won deal's name after normalization.
-/
theorem C10_linked_name_fallback :
    (∀ (schema : Schema) (item : RawItem) (name : String) (w : WORecord),
      (find_column item schema.columns ["deal name", "deal"] = PyVal.str "" ∨
       find_column item schema.columns ["deal name", "deal"] = PyVal.none) →
      buildWORecord schema.columns item name = Except.ok w →
      w.deal_name_linked = name) ∧
    (∀ (deals : List DealRecord) (wos : List WORecord) (d : DealRecord) (w : WORecord),
      d ∈ deals → d.status = "Won" → w ∈ wos →
      pyLower (pyStrip d.deal_name) = pyLower (pyStrip w.deal_name_linked) →
      pyLower (pyStrip d.deal_name) ∈ crossMatched deals wos) := by
  constructor
  · intro schema item name w h hb
    obtain ⟨sd, ed, hcore⟩ := buildWORecord_ok _ _ _ _ hb
    subst hcore
    show (if pyTruthy (find_column item schema.columns ["deal name", "deal"]) then
        pyStrip (pyStr (find_column item schema.columns ["deal name", "deal"]))
      else name) = name
    rcases h with h | h <;> rw [h] <;> rfl
  · intro deals wos d w hd hwon hw hname
    unfold crossMatched
    rw [List.mem_filter]
    constructor
    · rw [mem_distinctStrs]
      exact List.mem_map_of_mem _ (List.mem_filter.mpr ⟨hd, by simp [hwon]⟩)
    · have hmem : pyLower (pyStrip w.deal_name_linked) ∈
          distinctStrs (wos.map (fun w => pyLower (pyStrip w.deal_name_linked))) := by
        rw [mem_distinctStrs]
        exact List.mem_map_of_mem _ hw
      rw [hname]
      exact List.elem_iff.mpr hmem

/-- Concrete instantiation of `C10_linked_name_fallback`: `woItemW` has no
linked-deal cell, so its record links to its own name `Alpha`, and the Won
deal `Alpha` lands in the coverage numerator. -/
theorem C10_linked_name_fallback_witness :
    woRecW.deal_name_linked = "Alpha" ∧
    pyLower (pyStrip dWonAlpha.deal_name) ∈ crossMatched [dWonAlpha] [woRecW] :=
  ⟨C10_linked_name_fallback.1 woSchemaW woItemW "Alpha" woRecW
      (Or.inl (by with_unfolding_all rfl)) (by with_unfolding_all rfl),
   C10_linked_name_fallback.2 [dWonAlpha] [woRecW] dWonAlpha woRecW
      (List.mem_singleton_self _) (by with_unfolding_all rfl)
      (List.mem_singleton_self _) (by with_unfolding_all rfl)⟩

/--
Claim C8 (amended): for non-empty inputs the cross-board rollup never
errors; win rate is `round1(100·|Won| / |Open ∪ Won|)` and 0 when the
denominator is 0; coverage rate is `round1(100·|distinct normalized Won
names ∩ normalized work-order names| / |Won|)` and 0 when no deals are Won —
the numerator counts **distinct names**, not Won rows (see
`C8_coverage_counterexample`); a sector's realization rate is 0 whenever its
won-pipeline value is not positive.
-/
theorem C8_cross_rollup_rates (deals : List DealRecord) (wos : List WORecord)
    (h1 : deals ≠ []) (h2 : wos ≠ []) :
    (cross_board_analysis deals wos).isError = false ∧
    (cross_board_analysis deals wos).winRateOf =
      (if (deals.filter (fun r => r.status == "Open" || r.status == "Won")).length > 0 then
        py_round1 (100 * ((deals.filter (fun r => r.status == "Won")).length : ℚ) /
          ((deals.filter (fun r => r.status == "Open" || r.status == "Won")).length : ℚ))
       else 0) ∧
    (cross_board_analysis deals wos).coverageOf =
      (if (deals.filter (fun r => r.status == "Won")).length > 0 then
        py_round1 (100 * ((crossMatched deals wos).length : ℚ) /
          ((deals.filter (fun r => r.status == "Won")).length : ℚ))
       else 0) ∧
    ((cross_board_analysis deals wos).sectorPerfOf.all (fun sp =>
      decide (0 < rowGet (groupSum ((deals.filter (fun r => r.status == "Won")).map
        (fun r => (r.sector, r.deal_value)))) sp.1) ||
      decide (sp.2.realization_rate_pct = 0))) = true := by
  have hcond : ¬ (deals = [] ∨ wos = []) := by tauto
  refine ⟨?_, ?_, ?_, ?_⟩
  · rw [cross_board_analysis, if_neg hcond]
    rfl
  · rw [cross_board_analysis, if_neg hcond]
    rfl
  · rw [cross_board_analysis, if_neg hcond]
    rfl
  · rw [cross_board_analysis, if_neg hcond]
    show (List.map _ _).all _ = true
    rw [List.all_eq_true]
    intro sp hsp
    rw [List.mem_map] at hsp
    obtain ⟨sec, _, hspec⟩ := hsp
    subst hspec
    by_cases hpos : 0 < rowGet (groupSum ((deals.filter (fun r => r.status == "Won")).map
        (fun r => (r.sector, r.deal_value)))) sec
    · simp [hpos]
    · simp only [Bool.or_eq_true, decide_eq_true_eq]
      right
      show (if 0 < rowGet (groupSum ((deals.filter (fun r => r.status == "Won")).map
          (fun r => (r.sector, r.deal_value)))) sec then
        py_round1 _ else 0) = 0
      rw [if_neg hpos]

/-- Concrete instantiation of `C8_cross_rollup_rates`. -/
theorem C8_cross_rollup_rates_witness :
    (cross_board_analysis [dWonA, dOpenB] [wLinkedA]).isError = false :=
  (C8_cross_rollup_rates [dWonA, dOpenB] [wLinkedA] (by simp) (by simp)).1

/-- Counterexample to claim C8 as stated: two Won deals share the name `A`
and one work order links to `A`.  The code's coverage rate is 50 (distinct
names: 1 of 2 Won rows), while the claim's row-count numerator (2 of 2)
demands 100. -/
theorem C8_coverage_counterexample :
    (cross_board_analysis [dWonA, dWonA2] [wLinkedA]).coverageOf = 50 ∧
    coverageNumeratorSpec [dWonA, dWonA2] [wLinkedA] = 2 ∧
    ([dWonA, dWonA2].filter (fun r => r.status == "Won")).length = 2 ∧
    py_round1 (100 * (2 : ℚ) / 2) = 100 ∧
    (50 : ℚ) ≠ 100 := by
  refine ⟨?_, ?_, ?_, ?_, ?_⟩
  · with_unfolding_all rfl
  · with_unfolding_all rfl
  · with_unfolding_all rfl
  · with_unfolding_all rfl
  · norm_num

/-- A list starts with itself. -/
theorem startsList_append (p x : List Char) : startsList p (p ++ x) = true := by
  induction p with
  | nil => rfl
  | cons c cs ih => simp [startsList, ih]

/-- A string that does not start with `p` is not `p ++ x` for any `x`. -/
theorem ne_lit_append (t p x : String) (h : startsList p.data t.data = false) :
    t ≠ p ++ x := by
  intro he
  rw [he, String.data_append, startsList_append] at h
  cases h

/-- A string is empty iff its character list is. -/
theorem data_eq_nil_iff (s : String) : s.data = [] ↔ s = "" := by
  cases s with
  | mk d =>
    constructor
    · intro h
      subst h
      rfl
    · intro h
      have := congrArg String.data h
      simpa using this

/-- Appending to a nonempty string is nonempty. -/
theorem append_ne_empty_left (p x : String) (h : ¬ p.data = []) : p ++ x ≠ "" := by
  intro he
  have h2 := congrArg String.data he
  rw [String.data_append] at h2
  exact h (List.append_eq_nil.mp h2).1

/-- Joining a list whose first line is nonempty yields a nonempty string. -/
theorem joinSep_ne_empty (sep x : String) (xs : List String) (hx : x ≠ "") :
    joinSep sep (x :: xs) ≠ "" := by
  cases xs with
  | nil => simpa [joinSep] using hx
  | cons y rest =>
    show x ++ sep ++ joinSep sep (y :: rest) ≠ ""
    rw [String.append_assoc]
    exact append_ne_empty_left _ _ (fun h => hx ((data_eq_nil_iff x).mp h))

/-- A caveats dict with a signal above threshold is truthy. -/
theorem caveats_truthy_of_signal (c : Caveats)
    (h : c.deals_missing_revenue_pct.getD 0 > 10 ∨
         c.deals_missing_sector_pct.getD 0 > 10 ∨
         c.wo_missing_amount_pct.getD 0 > 10) : c.truthy = true := by
  rcases h with h | h | h
  · cases hx : c.deals_missing_revenue_pct with
    | none => rw [hx] at h; norm_num at h
    | some v => simp [Caveats.truthy, hx]
  · cases hx : c.deals_missing_sector_pct with
    | none => rw [hx] at h; norm_num at h
    | some v => simp [Caveats.truthy, hx]
  · cases hx : c.wo_missing_amount_pct with
    | none => rw [hx] at h; norm_num at h
    | some v => simp [Caveats.truthy, hx]

/-- The caveats header never appears in the opening block. -/
theorem hdr_not_in_fluHead (u : Update) :
    "### ⚠️ Data Caveats" ∉ fluHead u := by
  simp only [fluHead, List.mem_cons, List.not_mem_nil, or_false]
  push_neg
  refine ⟨?_, ?_, ?_, ?_, ?_, ?_, ?_⟩
  · exact ne_lit_append _ "## 📊 " _ (by decide)
  · simp only [String.append_assoc]
    exact ne_lit_append _ "*Generated: " _ (by decide)
  · decide
  · decide
  · exact ne_lit_append _ "- **Total Open Pipeline:** " _ (by decide)
  · exact ne_lit_append _ "- **Weighted Pipeline:** " _ (by decide)
  · exact ne_lit_append _ "- **Closing This Quarter:** " _ (by decide)

/-- The caveats header never appears in the by-sector block. -/
theorem hdr_not_in_fluSector (u : Update) :
    "### ⚠️ Data Caveats" ∉ fluSector u := by
  rw [fluSector]
  split
  · intro hmem
    rcases List.mem_append.mp hmem with h | h
    · exact absurd (List.mem_singleton.mp h) (by decide)
    · rcases List.mem_map.mp h with ⟨p, _, hp⟩
      exact ne_lit_append "### ⚠️ Data Caveats" "  - " (pyTitle p.1 ++ (": " ++ p.2))
        (by decide) (by rw [← hp]; simp [String.append_assoc])
  · simp

/-- The caveats header never appears in the revenue block. -/
theorem hdr_not_in_fluRevenue (u : Update) :
    "### ⚠️ Data Caveats" ∉ fluRevenue u := by
  simp only [fluRevenue, List.mem_cons, List.not_mem_nil, or_false]
  push_neg
  refine ⟨?_, ?_, ?_, ?_⟩
  · decide
  · decide
  · exact ne_lit_append _ "- **Closed Revenue:** " _ (by decide)
  · simp only [String.append_assoc]
    exact ne_lit_append _ "- **Top Sector:** " _ (by decide)

/-- The caveats header never appears in the operations block. -/
theorem hdr_not_in_fluOperations (u : Update) :
    "### ⚠️ Data Caveats" ∉ fluOperations u := by
  simp only [fluOperations, List.mem_cons, List.not_mem_nil, or_false]
  push_neg
  refine ⟨?_, ?_, ?_, ?_, ?_, ?_⟩
  · decide
  · decide
  · exact ne_lit_append _ "- **Active Work Orders:** " _ (by decide)
  · exact ne_lit_append _ "- **Completed Work Orders:** " _ (by decide)
  · exact ne_lit_append _ "- **Unbilled Backlog:** " _ (by decide)
  · simp only [String.append_assoc]
    exact ne_lit_append _ "- **Operational Risk:** " _ (by decide)

/-- The caveats header never appears in the conversion block. -/
theorem hdr_not_in_fluConversion (u : Update) :
    "### ⚠️ Data Caveats" ∉ fluConversion u := by
  simp only [fluConversion, List.mem_cons, List.not_mem_nil, or_false]
  push_neg
  refine ⟨?_, ?_, ?_, ?_⟩
  · decide
  · decide
  · simp only [String.append_assoc]
    exact ne_lit_append _ "- **Deal Win Rate:** " _ (by decide)
  · simp only [String.append_assoc]
    exact ne_lit_append _ "- **Won → Work Order Coverage:** " _ (by decide)

/-- The caveats header appears in the caveats block exactly when one of the
three signals the leadership renderer checks exceeds 10. -/
theorem hdr_in_fluCaveats_iff (u : Update) :
    "### ⚠️ Data Caveats" ∈ fluCaveats u ↔
      (u.data_quality.deals_missing_revenue_pct.getD 0 > 10 ∨
       u.data_quality.deals_missing_sector_pct.getD 0 > 10 ∨
       u.data_quality.wo_missing_amount_pct.getD 0 > 10) := by
  by_cases t : u.data_quality.truthy
  · by_cases h1 : u.data_quality.deals_missing_revenue_pct.getD 0 > 10 <;>
    by_cases h2 : u.data_quality.deals_missing_sector_pct.getD 0 > 10 <;>
    by_cases h3 : u.data_quality.wo_missing_amount_pct.getD 0 > 10 <;>
    simp [fluCaveats, t, h1, h2, h3]
  · constructor
    · intro hmem
      rw [fluCaveats] at hmem
      rw [if_neg (by simpa using t)] at hmem
      cases hmem
    · intro h
      exact absurd (caveats_truthy_of_signal _ h) t

/--
Claim C5 (amended): the rendered leadership report contains its data-caveats
section exactly when one of the **three** signals it checks exceeds its
threshold — deals missing revenue > 10, deals missing sector > 10, or
work-order missing amount > 10; the close-date signal is **not** checked
there (see `C5_close_date_counterexample`).  The standalone
`format_caveats_text` warning block is nonempty exactly when one of its
**four** signals exceeds its threshold, the close-date one at > 20.
-/
theorem C5_caveat_section_thresholds :
    (∀ u : Update,
      "### ⚠️ Data Caveats" ∈ format_leadership_update_lines u ↔
        (u.data_quality.deals_missing_revenue_pct.getD 0 > 10 ∨
         u.data_quality.deals_missing_sector_pct.getD 0 > 10 ∨
         u.data_quality.wo_missing_amount_pct.getD 0 > 10)) ∧
    (∀ c : Caveats,
      format_caveats_text c ≠ "" ↔
        (c.deals_missing_revenue_pct.getD 0 > 10 ∨
         c.deals_missing_sector_pct.getD 0 > 10 ∨
         c.deals_missing_close_date_pct.getD 0 > 20 ∨
         c.wo_missing_amount_pct.getD 0 > 10)) := by
  constructor
  · intro u
    have a1 := hdr_not_in_fluHead u
    have a2 := hdr_not_in_fluSector u
    have a3 := hdr_not_in_fluRevenue u
    have a4 := hdr_not_in_fluOperations u
    have a5 := hdr_not_in_fluConversion u
    rw [format_leadership_update_lines]
    simp only [List.mem_append, a1, a2, a3, a4, a5, false_or]
    exact hdr_in_fluCaveats_iff u
  · intro c
    by_cases h1 : c.deals_missing_revenue_pct.getD 0 > 10 <;>
    by_cases h2 : c.deals_missing_sector_pct.getD 0 > 10 <;>
    by_cases h3 : c.deals_missing_close_date_pct.getD 0 > 20 <;>
    by_cases h4 : c.wo_missing_amount_pct.getD 0 > 10 <;>
    simp only [format_caveats_text, h1, h2, h3, h4, if_true, if_false,
      List.nil_append, List.append_nil, List.append_assoc, List.cons_append,
      List.isEmpty_nil, List.isEmpty_cons, if_pos, ite_true, ite_false,
      ne_eq, not_false_eq_true, not_true_eq_false, iff_true, iff_false,
      or_self, or_true, true_or, or_false, false_or, not_or] <;>
    exact fun he =>
      joinSep_ne_empty _ _ _
        (append_ne_empty_left _ _ (by rw [String.data_append]; simp)) he

/-- Counterexample to claim C5 as stated: a caveats dict where only the
close-date signal exceeds its threshold makes `format_caveats_text` warn,
yet the rendered leadership report has no data-caveats section. -/
theorem C5_close_date_counterexample :
    cavCloseOnly.deals_missing_close_date_pct.getD 0 > 20 ∧
    format_caveats_text cavCloseOnly ≠ "" ∧
    "### ⚠️ Data Caveats" ∉ format_leadership_update_lines updCloseOnly := by
  refine ⟨?_, ?_, ?_⟩
  · exact of_decide_eq_true (by with_unfolding_all rfl)
  · exact of_decide_eq_true (by with_unfolding_all rfl)
  · exact of_decide_eq_true (by with_unfolding_all rfl)

end Skylark
